import Mathlib

/-!
Shallow embedding of the dxtbx image-collection model (src/imageset.h) and
detector-panel model (src/model/panel.h).

Carrier choices: C++ `double` values flowing through the correction pipeline
and the panel scalar data are embedded as `ℚ` (the operations used there are
ring/field operations and comparisons, all exact and executable); the
trigonometric resolution estimators of `Panel` are embedded over `ℝ` in a
separate `PanelGeom` structure, since they use `sqrt`, `sin`, `acos`.

Reference semantics: `scitbx::af::shared` arrays inside `ImageSetData`
(the per-image model slots) are reference-counted handles, so copying an
`ImageSetData` shares them.  They are embedded as handles (`Nat` indices)
into an explicit `ModelStore`; all other members (`ExternalLookup`,
reader data, the index list) are value-copied exactly as in the C++ class.
`DXTBX_ASSERT`/`DXTBX_ERROR` failures are embedded as `Except.error`.
-/

namespace Dxtbx

/-- One tile of a tiled image: a 2D accessor shape (slow, fast) and the
flattened element data, mirroring `scitbx::af::versa<T, c_grid<2>>`. -/
structure Tile (α : Type) where
  shape : Nat × Nat
  data : List α
  deriving DecidableEq, Repr

/-- A tiled image is an ordered sequence of tiles (`dxtbx::format::Image<T>`);
"empty" means zero tiles. -/
abbrev TiledImage (α : Type) : Type := List (Tile α)

/-- Modelled from the spec: the value type `Beam` is an external collaborator
(dxtbx/model/beam.h is not under src/); only value identity is used here. -/
structure Beam where
  tag : Nat
  deriving DecidableEq, Repr

/-- Modelled from the spec: the value type `Goniometer` is an external
collaborator (dxtbx/model/goniometer.h is not under src/). -/
structure Goniometer where
  tag : Nat
  deriving DecidableEq, Repr

/-- Modelled from the spec: the value type `Scan` is an external collaborator
(dxtbx/model/scan.h is not under src/).  The core calls `get_num_images()`
and single-image slicing `scan[i]`; a scan is embedded as a start frame plus
an image count. -/
structure Scan where
  arrayStart : Int
  numImages : Nat
  deriving DecidableEq, Repr

/-- Modelled from the spec: `scan[i]`, the single-image scan for image `i`. -/
def Scan.slice (s : Scan) (i : Nat) : Scan :=
  { arrayStart := s.arrayStart + (i : Int), numImages := 1 }

/-- The panel fields used by the image-collection claims, from
`dxtbx::model::Panel` (src/model/panel.h).  The geometric frame matrix lives
in `PanelGeom` below.  The `gain` field is modelled from the spec: the panel
scalar gain accessor `Panel::get_gain` is declared in detector headers that
are not under src/ (imageset.h calls `detector[i].get_gain()`);
spec section 4.2 describes it as the per-panel scalar gain value. -/
structure Panel where
  ptype : String
  pixel_size : ℚ × ℚ
  image_size : Nat × Nat
  trusted_range : ℚ × ℚ
  gain : ℚ
  mask : List (Int × Int × Int × Int)
  deriving DecidableEq, Repr

/-- Panel::get_gain, modelled from the spec (see `Panel`). -/
def Panel.get_gain (p : Panel) : ℚ :=
  p.gain

/-- Panel::get_mask (src/model/panel.h line 149). -/
def Panel.get_mask (p : Panel) : List (Int × Int × Int × Int) :=
  p.mask

/-- Panel::add_mask (src/model/panel.h line 159): pushes
`int4(f0, f1, s0, s1)` built from arguments `(f0, s0, f1, s1)`. -/
def Panel.add_mask (p : Panel) (f0 s0 f1 s1 : Int) : Panel :=
  { p with mask := p.mask ++ [(f0, f1, s0, s1)] }

/-- Panel::millimeter_to_pixel (src/model/panel.h line 324). -/
def Panel.millimeter_to_pixel (p : Panel) (xy : ℚ × ℚ) : ℚ × ℚ :=
  (xy.1 / p.pixel_size.1, xy.2 / p.pixel_size.2)

/-- Panel::pixel_to_millimeter (src/model/panel.h line 329). -/
def Panel.pixel_to_millimeter (p : Panel) (xy : ℚ × ℚ) : ℚ × ℚ :=
  (xy.1 * p.pixel_size.1, xy.2 * p.pixel_size.2)

/-- Detector: an ordered collection of panels (spec section 3; the concrete
container class is declared in dxtbx/model/detector.h, not under src/). -/
abbrev Detector : Type := List Panel

/-- ExternalLookupItem<T> (src/imageset.h lines 54-95). -/
structure ExternalLookupItem (α : Type) where
  filename : String
  data : TiledImage α
  deriving DecidableEq, Repr

/-- ExternalLookup (src/imageset.h lines 101-130): mask, gain, pedestal. -/
structure ExternalLookup where
  mask : ExternalLookupItem Bool
  gain : ExternalLookupItem ℚ
  pedestal : ExternalLookupItem ℚ
  deriving DecidableEq, Repr

/-- The heap of reference-counted `scitbx::af::shared` model-slot arrays.
Each `ImageSetData` holds one handle (list index) per model kind; distinct
`ImageSetData` copies made from the same original hold equal handles and so
alias the same arrays. -/
structure ModelStore where
  beams : List (List (Option Beam))
  detectors : List (List (Option Detector))
  goniometers : List (List (Option Goniometer))
  scans : List (List (Option Scan))
  deriving DecidableEq, Repr

/-- ImageSetData (src/imageset.h lines 136-259).  `readerData` embeds the
external reader contract (spec section 6): `read(physical_index)` returns one
tiled image; the reader handle is shared, and it is only read, so it is kept
by value.  The four `Ref` fields are the handles of the `af::shared` slot
arrays living in the `ModelStore`.  `lookup` is a plain value member exactly
as `external_lookup_` is in the C++ class. -/
structure ImageSetData where
  readerData : List (TiledImage ℚ)
  beamsRef : Nat
  detectorsRef : Nat
  goniometersRef : Nat
  scansRef : Nat
  lookup : ExternalLookup
  deriving DecidableEq, Repr

/-- ImageSetData::size (spec section 3: the number of physical images is the
length of the reader). -/
def ImageSetData.size (d : ImageSetData) : Nat :=
  d.readerData.length

/-- Modelled from the spec: ImageSetData::get_data delegates to the external
reader `read(index)` (the body in src/imageset.h lines 158-164 references the
reader through an opaque Python handle); spec section 6 gives the contract. -/
def ImageSetData.get_data (d : ImageSetData) (index : Nat) : TiledImage ℚ :=
  d.readerData.getD index []

/-- ImageSetData::get_beam (src/imageset.h lines 199-202). -/
def ImageSetData.get_beam (st : ModelStore) (d : ImageSetData) (index : Nat) :
    Except String (Option Beam) :=
  let arr := st.beams.getD d.beamsRef []
  if index < arr.length then .ok (arr.getD index none)
  else .error "DXTBX_ASSERT: index < beams_.size()"

/-- ImageSetData::set_beam (src/imageset.h lines 204-207). -/
def ImageSetData.set_beam (st : ModelStore) (d : ImageSetData) (index : Nat)
    (beam : Option Beam) : Except String ModelStore :=
  let arr := st.beams.getD d.beamsRef []
  if index < arr.length then
    .ok { st with beams := st.beams.set d.beamsRef (arr.set index beam) }
  else .error "DXTBX_ASSERT: index < beams_.size()"

/-- ImageSetData::get_detector (src/imageset.h lines 209-212). -/
def ImageSetData.get_detector (st : ModelStore) (d : ImageSetData) (index : Nat) :
    Except String (Option Detector) :=
  let arr := st.detectors.getD d.detectorsRef []
  if index < arr.length then .ok (arr.getD index none)
  else .error "DXTBX_ASSERT: index < detectors_.size()"

/-- ImageSetData::set_detector (src/imageset.h lines 214-217). -/
def ImageSetData.set_detector (st : ModelStore) (d : ImageSetData) (index : Nat)
    (det : Option Detector) : Except String ModelStore :=
  let arr := st.detectors.getD d.detectorsRef []
  if index < arr.length then
    .ok { st with detectors := st.detectors.set d.detectorsRef (arr.set index det) }
  else .error "DXTBX_ASSERT: index < detectors_.size()"

/-- ImageSetData::get_goniometer (src/imageset.h lines 219-222). -/
def ImageSetData.get_goniometer (st : ModelStore) (d : ImageSetData) (index : Nat) :
    Except String (Option Goniometer) :=
  let arr := st.goniometers.getD d.goniometersRef []
  if index < arr.length then .ok (arr.getD index none)
  else .error "DXTBX_ASSERT: index < goniometers_.size()"

/-- ImageSetData::set_goniometer (src/imageset.h lines 224-227). -/
def ImageSetData.set_goniometer (st : ModelStore) (d : ImageSetData) (index : Nat)
    (g : Option Goniometer) : Except String ModelStore :=
  let arr := st.goniometers.getD d.goniometersRef []
  if index < arr.length then
    .ok { st with goniometers := st.goniometers.set d.goniometersRef (arr.set index g) }
  else .error "DXTBX_ASSERT: index < goniometers_.size()"

/-- ImageSetData::get_scan (src/imageset.h lines 229-232). -/
def ImageSetData.get_scan (st : ModelStore) (d : ImageSetData) (index : Nat) :
    Except String (Option Scan) :=
  let arr := st.scans.getD d.scansRef []
  if index < arr.length then .ok (arr.getD index none)
  else .error "DXTBX_ASSERT: index < scans_.size()"

/-- ImageSetData::set_scan (src/imageset.h lines 234-237). -/
def ImageSetData.set_scan (st : ModelStore) (d : ImageSetData) (index : Nat)
    (scan : Option Scan) : Except String ModelStore :=
  let arr := st.scans.getD d.scansRef []
  if index < arr.length then
    .ok { st with scans := st.scans.set d.scansRef (arr.set index scan) }
  else .error "DXTBX_ASSERT: index < scans_.size()"

/-- ImageSet (src/imageset.h lines 266-706): a view holding its own
`ImageSetData` copy (the C++ member `data_` is a value; its slot arrays are
shared through the handles), the exposed index list, and the one-slot raw
data cache (`DataCache`, initial index -1). -/
structure ImageSet where
  data : ImageSetData
  indices : List Nat
  cacheIndex : Int
  cacheImage : TiledImage ℚ
  deriving DecidableEq, Repr

/-- ImageSet::ImageSet(data) (src/imageset.h lines 301-307): indices are all
physical indices 0..size-1; cache starts at index -1. -/
def ImageSet.ofData (d : ImageSetData) : ImageSet :=
  { data := d, indices := List.range d.size, cacheIndex := -1, cacheImage := [] }

/-- Largest element of a nonempty list (scitbx::af::max over a const_ref). -/
def maxList (l : List Nat) : Nat :=
  l.foldl Nat.max 0

/-- ImageSet::ImageSet(data, indices) (src/imageset.h lines 314-320):
asserts `max(indices) < data.size()`; `scitbx::af::max` requires a nonempty
range. -/
def ImageSet.ofDataIndices (d : ImageSetData) (idxs : List Nat) :
    Except String ImageSet :=
  match idxs with
  | [] => .error "SCITBX_ASSERT: af::max of empty range"
  | _ =>
    if maxList idxs < d.size then
      .ok { data := d, indices := idxs, cacheIndex := -1, cacheImage := [] }
    else .error "DXTBX_ASSERT: max(indices) < data.size()"

/-- ImageSet::size (src/imageset.h lines 339-341). -/
def ImageSet.size (s : ImageSet) : Nat :=
  s.indices.length

/-- ImageSet::get_raw_data (src/imageset.h lines 355-363): serve the one-slot
cache on a hit, otherwise read physical index `indices_[index]` from the
reader and refill the cache. -/
def ImageSet.get_raw_data (s : ImageSet) (index : Nat) :
    TiledImage ℚ × ImageSet :=
  if s.cacheIndex = (index : Int) then (s.cacheImage, s)
  else
    let image := s.data.get_data (s.indices.getD index 0)
    (image, { s with cacheIndex := (index : Int), cacheImage := image })

/-- ImageSet::get_beam_for_image (src/imageset.h lines 543-547). -/
def ImageSet.get_beam_for_image (st : ModelStore) (s : ImageSet) (index : Nat) :
    Except String (Option Beam) :=
  if index < s.indices.length then
    ImageSetData.get_beam st s.data (s.indices.getD index 0)
  else .error "DXTBX_ASSERT: index < indices_.size()"

/-- ImageSet::get_detector_for_image (src/imageset.h lines 553-557). -/
def ImageSet.get_detector_for_image (st : ModelStore) (s : ImageSet) (index : Nat) :
    Except String (Option Detector) :=
  if index < s.indices.length then
    ImageSetData.get_detector st s.data (s.indices.getD index 0)
  else .error "DXTBX_ASSERT: index < indices_.size()"

/-- ImageSet::get_goniometer_for_image (src/imageset.h lines 563-567). -/
def ImageSet.get_goniometer_for_image (st : ModelStore) (s : ImageSet) (index : Nat) :
    Except String (Option Goniometer) :=
  if index < s.indices.length then
    ImageSetData.get_goniometer st s.data (s.indices.getD index 0)
  else .error "DXTBX_ASSERT: index < indices_.size()"

/-- ImageSet::get_scan_for_image (src/imageset.h lines 573-577). -/
def ImageSet.get_scan_for_image (st : ModelStore) (s : ImageSet) (index : Nat) :
    Except String (Option Scan) :=
  if index < s.indices.length then
    ImageSetData.get_scan st s.data (s.indices.getD index 0)
  else .error "DXTBX_ASSERT: index < indices_.size()"

/-- ImageSet::set_beam_for_image (src/imageset.h lines 584-588). -/
def ImageSet.set_beam_for_image (st : ModelStore) (s : ImageSet) (index : Nat)
    (beam : Option Beam) : Except String ModelStore :=
  if index < s.indices.length then
    ImageSetData.set_beam st s.data (s.indices.getD index 0) beam
  else .error "DXTBX_ASSERT: index < indices_.size()"

/-- ImageSet::set_detector_for_image (src/imageset.h lines 595-599). -/
def ImageSet.set_detector_for_image (st : ModelStore) (s : ImageSet) (index : Nat)
    (det : Option Detector) : Except String ModelStore :=
  if index < s.indices.length then
    ImageSetData.set_detector st s.data (s.indices.getD index 0) det
  else .error "DXTBX_ASSERT: index < indices_.size()"

/-- ImageSet::set_goniometer_for_image (src/imageset.h lines 606-610). -/
def ImageSet.set_goniometer_for_image (st : ModelStore) (s : ImageSet) (index : Nat)
    (g : Option Goniometer) : Except String ModelStore :=
  if index < s.indices.length then
    ImageSetData.set_goniometer st s.data (s.indices.getD index 0) g
  else .error "DXTBX_ASSERT: index < indices_.size()"

/-- ImageSet::set_scan_for_image (src/imageset.h lines 617-622): first asserts
`scan == NULL || scan->get_num_images() == 1`, then the index bound, then
forwards to the data. -/
def ImageSet.set_scan_for_image (st : ModelStore) (s : ImageSet) (index : Nat)
    (scan : Option Scan) : Except String ModelStore :=
  match scan with
  | none =>
    if index < s.indices.length then
      ImageSetData.set_scan st s.data (s.indices.getD index 0) none
    else .error "DXTBX_ASSERT: index < indices_.size()"
  | some sc =>
    if sc.numImages = 1 then
      if index < s.indices.length then
        ImageSetData.set_scan st s.data (s.indices.getD index 0) (some sc)
      else .error "DXTBX_ASSERT: index < indices_.size()"
    else .error "DXTBX_ASSERT: scan == NULL || scan num_images == 1"

/-- Mutating the gain item of the view through
`imageset.external_lookup().gain().set_data(...)` (src/imageset.h lines
346-348 and 87-89): an assignment to the gain `Image` member of this view's
own `ImageSetData` copy. -/
def ImageSet.set_gain_lookup_data (s : ImageSet) (img : TiledImage ℚ) : ImageSet :=
  { s with data := { s.data with lookup :=
      { s.data.lookup with gain := { s.data.lookup.gain with data := img } } } }

/-- Mutating the mask item of the view through
`imageset.external_lookup().mask().set_data(...)`. -/
def ImageSet.set_mask_lookup_data (s : ImageSet) (img : TiledImage Bool) : ImageSet :=
  { s with data := { s.data with lookup :=
      { s.data.lookup with mask := { s.data.lookup.mask with data := img } } } }

/-- Mutating the pedestal item of the view through
`imageset.external_lookup().pedestal().set_data(...)`. -/
def ImageSet.set_pedestal_lookup_data (s : ImageSet) (img : TiledImage ℚ) : ImageSet :=
  { s with data := { s.data with lookup :=
      { s.data.lookup with pedestal := { s.data.lookup.pedestal with data := img } } } }

/-- The break-on-first-nonpositive panel gain loop of ImageSet::get_gain
(src/imageset.h lines 431-438). -/
def allGainsPositive : List Panel → Bool
  | [] => true
  | p :: rest => if 0 < p.get_gain then allGainsPositive rest else false

/-- The uniform gain tile for one panel (src/imageset.h lines 443-449):
accessor `c_grid<2>(ysize, xsize)` filled with the panel gain. -/
def uniformGainTile (p : Panel) : Tile ℚ :=
  { shape := (p.image_size.2, p.image_size.1),
    data := List.replicate (p.image_size.2 * p.image_size.1) p.get_gain }

/-- The synthesized per-panel uniform gain map of ImageSet::get_gain. -/
def gainMap (det : Detector) : TiledImage ℚ :=
  det.map uniformGainTile

/-- ImageSet::get_gain (src/imageset.h lines 424-456): if the external gain
lookup is empty, read the detector for this image, and when every panel gain
is positive synthesize the uniform map and store it in the lookup (filename
cleared); finally return the lookup data.  Dereferencing a null detector
slot (`*get_detector_for_image(index)`) is undefined behaviour in C++ and is
embedded as an error. -/
def ImageSet.get_gain (st : ModelStore) (s : ImageSet) (index : Nat) :
    Except String (TiledImage ℚ × ImageSet) :=
  if s.data.lookup.gain.data = ([] : TiledImage ℚ) then
    match ImageSet.get_detector_for_image st s index with
    | .error e => .error e
    | .ok none => .error "null detector dereference"
    | .ok (some det) =>
      if allGainsPositive det then
        let result := gainMap det
        let s1 := ImageSet.set_gain_lookup_data
          { s with data := { s.data with lookup :=
              { s.data.lookup with gain := { s.data.lookup.gain with filename := "" } } } }
          result
        .ok (s1.data.lookup.gain.data, s1)
      else .ok (s.data.lookup.gain.data, s)
  else .ok (s.data.lookup.gain.data, s)

/-- ImageSet::get_pedestal (src/imageset.h lines 463-465). -/
def ImageSet.get_pedestal (s : ImageSet) (_index : Nat) : TiledImage ℚ :=
  s.data.lookup.pedestal.data

/-- The pedestal loop of ImageSet::get_corrected_data (src/imageset.h lines
398-402): `for (j = 0; j < r.size(); ++j) c[i] = c[i] - p[i]` — the body
indexes with the tile index `i`, not the loop variable `j`, so one element is
updated `r.size()` times.  `count` is the remaining iteration count. -/
def pedIter (i : Nat) (pv : ℚ) : Nat → List ℚ → List ℚ
  | 0, c => c
  | count + 1, c => pedIter i pv count (c.set i (c.getD i 0 - pv))

/-- The gain loop of ImageSet::get_corrected_data (src/imageset.h lines
405-410): each iteration asserts `g[i] > 0` then performs `c[i] = c[i] / g[i]`
(again with the tile index `i`). -/
def gainIter (i : Nat) (gv : ℚ) : Nat → List ℚ → Except String (List ℚ)
  | 0, c => .ok c
  | count + 1, c =>
    if 0 < gv then gainIter i gv count (c.set i (c.getD i 0 / gv))
    else .error "DXTBX_ASSERT: g[i] > 0"

/-- The per-tile body of ImageSet::get_corrected_data (src/imageset.h lines
384-412) for tile index `i`: the two accessor asserts, the copy of the raw
tile, the pedestal loop when the pedestal tile is nonempty, and the gain
loop when the gain tile is nonempty. -/
def correctedTile (i : Nat) (r g p : Tile ℚ) : Except String (Tile ℚ) :=
  if g.data.length = 0 ∨ r.shape = g.shape then
    if p.data.length = 0 ∨ r.shape = p.shape then
      let c := r.data
      let c := if 0 < p.data.length then pedIter i (p.data.getD i 0) r.data.length c else c
      match (if 0 < g.data.length then gainIter i (g.data.getD i 0) r.data.length c
             else .ok c) with
      | .error e => .error e
      | .ok c => .ok { shape := r.shape, data := c }
    else .error "DXTBX_ASSERT: p.size() == 0 || r.accessor().all_eq(p.accessor())"
  else .error "DXTBX_ASSERT: g.size() == 0 || r.accessor().all_eq(g.accessor())"

/-- The tile loop of ImageSet::get_corrected_data over the tile indices. -/
def corrAll (raw gain ped : TiledImage ℚ) : List Nat → Except String (TiledImage ℚ)
  | [] => .ok []
  | i :: rest =>
    match correctedTile i (raw.getD i { shape := (0, 0), data := [] })
        (gain.getD i { shape := (0, 0), data := [] })
        (ped.getD i { shape := (0, 0), data := [] }) with
    | .error e => .error e
    | .ok t =>
      match corrAll raw gain ped rest with
      | .error e => .error e
      | .ok ts => .ok (t :: ts)

/-- ImageSet::get_corrected_data (src/imageset.h lines 370-416): raw data
promoted to double, the two strict tile-count asserts against the gain and
pedestal images, then the per-tile correction loop. -/
def ImageSet.get_corrected_data (st : ModelStore) (s : ImageSet) (index : Nat) :
    Except String (TiledImage ℚ × ImageSet) :=
  let rd := ImageSet.get_raw_data s index
  match ImageSet.get_gain st rd.2 index with
  | .error e => .error e
  | .ok (gain, s2) =>
    let ped := ImageSet.get_pedestal s2 index
    if rd.1.length = gain.length then
      if rd.1.length = ped.length then
        match corrAll rd.1 gain ped (List.range rd.1.length) with
        | .error e => .error e
        | .ok result => .ok (result, s2)
      else .error "DXTBX_ASSERT: data.n_tiles() == pedestal.n_tiles()"
    else .error "DXTBX_ASSERT: data.n_tiles() == gain.n_tiles()"

/-- ImageSet::complete_set (src/imageset.h lines 658-661). -/
def ImageSet.complete_set (s : ImageSet) : ImageSet :=
  ImageSet.ofData s.data

/-- ImageSet::partial_set (src/imageset.h lines 668-675), named `part_set`
here: asserts `last > first` and views the logical index sublist
[first, last). -/
def ImageSet.part_set (s : ImageSet) (first last : Nat) :
    Except String ImageSet :=
  if first < last then
    ImageSet.ofDataIndices s.data ((s.indices.drop first).take (last - first))
  else .error "DXTBX_ASSERT: last > first"

/-- ImageGrid (src/imageset.h lines 712-794): an ImageSet with a fixed 2D
grid size. -/
structure ImageGrid where
  toImageSet : ImageSet
  grid_size : Int × Int
  deriving DecidableEq, Repr

/-- ImageGrid::ImageGrid(data, grid_size) (src/imageset.h lines 720-726):
asserts both grid dimensions positive and width*height == size(). -/
def ImageGrid.ofData (d : ImageSetData) (grid_size : Int × Int) :
    Except String ImageGrid :=
  let base := ImageSet.ofData d
  if 0 < grid_size.1 ∧ 0 < grid_size.2 then
    if grid_size.1 * grid_size.2 = (base.size : Int) then
      .ok { toImageSet := base, grid_size := grid_size }
    else .error "DXTBX_ASSERT: grid_size[0] * grid_size[1] == size()"
  else .error "DXTBX_ASSERT: grid_size.all_gt(0)"

/-- ImageGrid::complete_set (src/imageset.h lines 775-778): fails fatally. -/
def ImageGrid.complete_set (_g : ImageGrid) : Except String ImageSet :=
  .error "DXTBX_ERROR: Cannot get complete set from image grid"

/-- ImageGrid::partial_set (src/imageset.h lines 786-789), named `part_set`
here: fails fatally for all arguments. -/
def ImageGrid.part_set (_g : ImageGrid) (_first _last : Nat) :
    Except String ImageSet :=
  .error "DXTBX_ERROR: Cannot get partial set from image grid"

/-- ImageSweep (src/imageset.h lines 800-1076): an ImageSet plus the single
shared beam/detector/goniometer and the multi-image scan. -/
structure ImageSweep where
  toImageSet : ImageSet
  beam : Beam
  detector : Detector
  goniometer : Goniometer
  scan : Scan
  deriving DecidableEq, Repr

/-- The model-broadcast loop of the ImageSweep constructors (src/imageset.h
lines 826-831 and 864-869): for each logical index i, set the shared beam,
detector and goniometer and the single-image scan slice `scan[i]` through the
base-class per-image setters. -/
def sweepLoop (s : ImageSet) (b : Beam) (dt : Detector) (g : Goniometer)
    (sc : Scan) : ModelStore → List Nat → Except String ModelStore
  | st, [] => .ok st
  | st, i :: rest =>
    match ImageSet.set_beam_for_image st s i (some b) with
    | .error e => .error e
    | .ok st1 =>
      match ImageSet.set_detector_for_image st1 s i (some dt) with
      | .error e => .error e
      | .ok st2 =>
        match ImageSet.set_goniometer_for_image st2 s i (some g) with
        | .error e => .error e
        | .ok st3 =>
          match ImageSet.set_scan_for_image st3 s i (some (sc.slice i)) with
          | .error e => .error e
          | .ok st4 => sweepLoop s b dt g sc st4 rest

/-- ImageSweep::ImageSweep(data, beam, detector, goniometer, scan)
(src/imageset.h lines 811-832): base view over all physical indices, the
assert `data.size() == scan.get_num_images()`, then the broadcast loop. -/
def ImageSweep.ofData (st : ModelStore) (d : ImageSetData) (b : Beam)
    (dt : Detector) (g : Goniometer) (sc : Scan) :
    Except String (ModelStore × ImageSweep) :=
  let base := ImageSet.ofData d
  if d.size = sc.numImages then
    match sweepLoop base b dt g sc st (List.range base.size) with
    | .error e => .error e
    | .ok st1 =>
      .ok (st1, { toImageSet := base, beam := b, detector := dt,
                  goniometer := g, scan := sc })
  else .error "DXTBX_ASSERT: data.size() == scan.get_num_images()"

/-- The sequential-indices check of the indexed ImageSweep constructor
(src/imageset.h lines 858-861): `indices[i] == indices[i-1]+1` for all i. -/
def seqCheck : List Nat → Bool
  | [] => true
  | [_] => true
  | a :: b :: rest => if b = a + 1 then seqCheck (b :: rest) else false

/-- ImageSweep::ImageSweep(data, indices, beam, detector, goniometer, scan)
(src/imageset.h lines 843-870): base view over the supplied indices (which
itself asserts max(indices) < data.size()), the assert
`indices.size() == scan.get_num_images()`, the sequential-indices check,
then the broadcast loop. -/
def ImageSweep.ofDataIndices (st : ModelStore) (d : ImageSetData)
    (idxs : List Nat) (b : Beam) (dt : Detector) (g : Goniometer) (sc : Scan) :
    Except String (ModelStore × ImageSweep) :=
  match ImageSet.ofDataIndices d idxs with
  | .error e => .error e
  | .ok base =>
    if idxs.length = sc.numImages then
      if seqCheck idxs then
        match sweepLoop base b dt g sc st (List.range base.size) with
        | .error e => .error e
        | .ok st1 =>
          .ok (st1, { toImageSet := base, beam := b, detector := dt,
                      goniometer := g, scan := sc })
      else .error "DXTBX_ASSERT: indices[i] == indices[i-1]+1"
    else .error "DXTBX_ASSERT: indices.size() == scan.get_num_images()"

/-- ImageSweep::set_beam_for_image (src/imageset.h lines 956-958): fails
fatally for all arguments. -/
def ImageSweep.set_beam_for_image (_st : ModelStore) (_sw : ImageSweep)
    (_index : Nat) (_beam : Option Beam) : Except String ModelStore :=
  .error "DXTBX_ERROR: Cannot set per-image model in sweep"

/-- ImageSweep::set_detector_for_image (src/imageset.h lines 963-965). -/
def ImageSweep.set_detector_for_image (_st : ModelStore) (_sw : ImageSweep)
    (_index : Nat) (_det : Option Detector) : Except String ModelStore :=
  .error "DXTBX_ERROR: Cannot set per-image model in sweep"

/-- ImageSweep::set_goniometer_for_image (src/imageset.h lines 970-972). -/
def ImageSweep.set_goniometer_for_image (_st : ModelStore) (_sw : ImageSweep)
    (_index : Nat) (_g : Option Goniometer) : Except String ModelStore :=
  .error "DXTBX_ERROR: Cannot set per-image model in sweep"

/-- ImageSweep::set_scan_for_image (src/imageset.h lines 977-979). -/
def ImageSweep.set_scan_for_image (_st : ModelStore) (_sw : ImageSweep)
    (_index : Nat) (_scan : Option Scan) : Except String ModelStore :=
  .error "DXTBX_ERROR: Cannot set per-image model in sweep"

/-- ImageSweep::complete_set (src/imageset.h lines 995-998): fails fatally. -/
def ImageSweep.complete_set (_sw : ImageSweep) : Except String ImageSet :=
  .error "DXTBX_ERROR: Cannot get complete set from image sweep"

/-- ImageSweep::partial_set (src/imageset.h lines 1006-1009), named
`part_set` here: fails fatally for all arguments. -/
def ImageSweep.part_set (_sw : ImageSweep) (_first _last : Nat) :
    Except String ImageSet :=
  .error "DXTBX_ERROR: Cannot get partial set from image sweep"

noncomputable section Geometry

open scoped Classical

/-- scitbx::vec3<double>, embedded over ℝ. -/
structure Vec3 where
  x : ℝ
  y : ℝ
  z : ℝ

/-- Dot product of two 3-vectors. -/
def dot3 (u v : Vec3) : ℝ :=
  u.x * v.x + u.y * v.y + u.z * v.z

/-- Cross product of two 3-vectors (right-handed). -/
def cross3 (u v : Vec3) : Vec3 :=
  ⟨u.y * v.z - u.z * v.y, u.z * v.x - u.x * v.z, u.x * v.y - u.y * v.x⟩

/-- Scalar multiple of a 3-vector. -/
def smul3 (a : ℝ) (v : Vec3) : Vec3 :=
  ⟨a * v.x, a * v.y, a * v.z⟩

/-- Euclidean length of a 3-vector (scitbx vec3::length). -/
def norm3 (v : Vec3) : ℝ :=
  Real.sqrt (dot3 v v)

/-- scitbx vec3::normalize: the vector divided by its length. -/
def normalize3 (v : Vec3) : Vec3 :=
  smul3 (1 / norm3 v) v

/-- scitbx vec3::angle: the angle between two vectors in radians, the
arc-cosine of the normalized dot product. -/
def angle3 (u v : Vec3) : ℝ :=
  Real.arccos (dot3 u v / (norm3 u * norm3 v))

/-- scitbx::mat3<double>, row-major, entries a0..a8 as indexed in panel.h. -/
structure Mat3 where
  a0 : ℝ
  a1 : ℝ
  a2 : ℝ
  a3 : ℝ
  a4 : ℝ
  a5 : ℝ
  a6 : ℝ
  a7 : ℝ
  a8 : ℝ

/-- Matrix-vector product. -/
def mulVec (m : Mat3) (v : Vec3) : Vec3 :=
  ⟨m.a0 * v.x + m.a1 * v.y + m.a2 * v.z,
   m.a3 * v.x + m.a4 * v.y + m.a5 * v.z,
   m.a6 * v.x + m.a7 * v.y + m.a8 * v.z⟩

/-- Determinant of a 3x3 matrix. -/
def det3 (m : Mat3) : ℝ :=
  m.a0 * (m.a4 * m.a8 - m.a5 * m.a7)
    - m.a1 * (m.a3 * m.a8 - m.a5 * m.a6)
    + m.a2 * (m.a3 * m.a7 - m.a4 * m.a6)

/-- scitbx mat3::inverse: transposed cofactor matrix over the determinant. -/
def inv3 (m : Mat3) : Mat3 :=
  let d := det3 m
  ⟨(m.a4 * m.a8 - m.a5 * m.a7) / d,
   (m.a2 * m.a7 - m.a1 * m.a8) / d,
   (m.a1 * m.a5 - m.a2 * m.a4) / d,
   (m.a5 * m.a6 - m.a3 * m.a8) / d,
   (m.a0 * m.a8 - m.a2 * m.a6) / d,
   (m.a2 * m.a3 - m.a0 * m.a5) / d,
   (m.a3 * m.a7 - m.a4 * m.a6) / d,
   (m.a1 * m.a6 - m.a0 * m.a7) / d,
   (m.a0 * m.a4 - m.a1 * m.a3) / d⟩

/-- Panel::create_d_matrix (src/model/panel.h lines 351-357): columns are
fast axis, slow axis, origin. -/
def create_d_matrix (fast slow origin : Vec3) : Mat3 :=
  ⟨fast.x, slow.x, origin.x,
   fast.y, slow.y, origin.y,
   fast.z, slow.z, origin.z⟩

/-- The geometric state of `dxtbx::model::Panel` (src/model/panel.h): the
frame matrix `d_`, its cached inverse `D_`, pixel size and image size,
embedded over ℝ because the resolution estimators use trigonometry. -/
structure PanelGeom where
  dmat : Mat3
  Dmat : Mat3
  pixel_size : ℝ × ℝ
  image_size : Nat × Nat

/-- Panel construction / Panel::set_frame (src/model/panel.h lines 68-83 and
174-181): normalize both axes, build `d_`, cache `D_ = d_.inverse()`. -/
def mkPanelGeom (fast slow origin : Vec3) (ps : ℝ × ℝ) (isz : Nat × Nat) :
    PanelGeom :=
  let d := create_d_matrix (normalize3 fast) (normalize3 slow) origin
  { dmat := d, Dmat := inv3 d, pixel_size := ps, image_size := isz }

/-- Panel::get_fast_axis (src/model/panel.h lines 99-101). -/
def PanelGeom.get_fast_axis (p : PanelGeom) : Vec3 :=
  ⟨p.dmat.a0, p.dmat.a3, p.dmat.a6⟩

/-- Panel::get_slow_axis (src/model/panel.h lines 104-106). -/
def PanelGeom.get_slow_axis (p : PanelGeom) : Vec3 :=
  ⟨p.dmat.a1, p.dmat.a4, p.dmat.a7⟩

/-- Panel::get_origin (src/model/panel.h lines 109-111). -/
def PanelGeom.get_origin (p : PanelGeom) : Vec3 :=
  ⟨p.dmat.a2, p.dmat.a5, p.dmat.a8⟩

/-- Panel::get_normal (src/model/panel.h lines 114-116). -/
def PanelGeom.get_normal (p : PanelGeom) : Vec3 :=
  cross3 p.get_fast_axis p.get_slow_axis

/-- Panel::get_distance (src/model/panel.h lines 184-186). -/
def PanelGeom.get_distance (p : PanelGeom) : ℝ :=
  dot3 p.get_origin p.get_normal

/-- Panel::millimeter_to_pixel over ℝ (src/model/panel.h lines 324-326). -/
def PanelGeom.millimeter_to_pixel (p : PanelGeom) (xy : ℝ × ℝ) : ℝ × ℝ :=
  (xy.1 / p.pixel_size.1, xy.2 / p.pixel_size.2)

/-- Panel::pixel_to_millimeter over ℝ (src/model/panel.h lines 329-331). -/
def PanelGeom.pixel_to_millimeter (p : PanelGeom) (xy : ℝ × ℝ) : ℝ × ℝ :=
  (xy.1 * p.pixel_size.1, xy.2 * p.pixel_size.2)

/-- Panel::get_lab_coord (src/model/panel.h lines 306-308). -/
def PanelGeom.get_lab_coord (p : PanelGeom) (xy : ℝ × ℝ) : Vec3 :=
  mulVec p.dmat ⟨xy.1, xy.2, 1⟩

/-- Panel::get_pixel_lab_coord (src/model/panel.h lines 311-314). -/
def PanelGeom.get_pixel_lab_coord (p : PanelGeom) (xy : ℝ × ℝ) : Vec3 :=
  p.get_lab_coord (p.pixel_to_millimeter xy)

/-- Panel::get_ray_intersection (src/model/panel.h lines 317-321): asserts
`v[2] > 0`. -/
def PanelGeom.get_ray_intersection (p : PanelGeom) (s1 : Vec3) :
    Except String (ℝ × ℝ) :=
  let v := mulVec p.Dmat s1
  if 0 < v.z then .ok (v.x / v.z, v.y / v.z)
  else .error "DXTBX_ASSERT: v[2] > 0"

/-- Panel::get_beam_centre (src/model/panel.h lines 212-214). -/
def PanelGeom.get_beam_centre (p : PanelGeom) (s0 : Vec3) :
    Except String (ℝ × ℝ) :=
  p.get_ray_intersection s0

/-- Panel::get_beam_centre_lab (src/model/panel.h lines 217-221): asserts
`s0 * normal > 0`. -/
def PanelGeom.get_beam_centre_lab (p : PanelGeom) (s0 : Vec3) :
    Except String Vec3 :=
  let s0dotd3 := dot3 s0 p.get_normal
  if 0 < s0dotd3 then .ok (smul3 (p.get_distance / s0dotd3) s0)
  else .error "DXTBX_ASSERT: s0dotd3 > 0"

/-- The ray-intersection value with the guard stripped, for stating the
results of the guarded functions. -/
def rayIntersectionVal (p : PanelGeom) (s1 : Vec3) : ℝ × ℝ :=
  let v := mulVec p.Dmat s1
  (v.x / v.z, v.y / v.z)

/-- The beam-centre-lab value with the guard stripped. -/
def beamCentreLabVal (p : PanelGeom) (s0 : Vec3) : Vec3 :=
  smul3 (p.get_distance / dot3 s0 p.get_normal) s0

/-- Minimum of four values (scitbx::af::min over a double4). -/
def min4 (a b c d : ℝ) : ℝ :=
  min (min (min a b) c) d

/-- Maximum of four values (scitbx::af::max over a double4). -/
def max4 (a b c d : ℝ) : ℝ :=
  max (max (max a b) c) d

/-- The sine computed by Panel::get_resolution_at_pixel. -/
def pixelSinTheta (p : PanelGeom) (s0 : Vec3) (xy : ℝ × ℝ) : ℝ :=
  Real.sin (0.5 * angle3 (beamCentreLabVal p s0) (p.get_pixel_lab_coord xy))

/-- Panel::get_resolution_at_pixel (src/model/panel.h lines 229-244): the
lab coordinate of the pixel, the beam centre (guarded), the half-angle sine,
the assert `sintheta != 0`, and the resolution `wavelength / (2 sintheta)`. -/
def PanelGeom.get_resolution_at_pixel (p : PanelGeom) (s0 : Vec3)
    (wavelength : ℝ) (xy : ℝ × ℝ) : Except String ℝ :=
  let xyz := p.get_pixel_lab_coord xy
  match p.get_beam_centre_lab s0 with
  | .error e => .error e
  | .ok beam_centre =>
    let sintheta := Real.sin (0.5 * angle3 beam_centre xyz)
    if sintheta = 0 then .error "DXTBX_ASSERT: sintheta != 0"
    else .ok (wavelength / (2 * sintheta))

/-- The sine computed by Panel::get_max_resolution_at_corners. -/
def cornersSinTheta (p : PanelGeom) (s0 : Vec3) : ℝ :=
  let fast := (p.image_size.1 : ℝ)
  let slow := (p.image_size.2 : ℝ)
  Real.sin (0.5 * max4
    (angle3 (beamCentreLabVal p s0) p.get_origin)
    (angle3 (beamCentreLabVal p s0) (p.get_pixel_lab_coord (0, slow)))
    (angle3 (beamCentreLabVal p s0) (p.get_pixel_lab_coord (fast, 0)))
    (angle3 (beamCentreLabVal p s0) (p.get_pixel_lab_coord (fast, slow))))

/-- Panel::get_max_resolution_at_corners (src/model/panel.h lines 252-272):
the four panel corners, the guarded beam centre, the half of the maximum
corner angle, the assert `sintheta != 0`, then the resolution. -/
def PanelGeom.get_max_resolution_at_corners (p : PanelGeom) (s0 : Vec3)
    (wavelength : ℝ) : Except String ℝ :=
  let fast := (p.image_size.1 : ℝ)
  let slow := (p.image_size.2 : ℝ)
  let xyz00 := p.get_origin
  let xyz01 := p.get_pixel_lab_coord (0, slow)
  let xyz10 := p.get_pixel_lab_coord (fast, 0)
  let xyz11 := p.get_pixel_lab_coord (fast, slow)
  match p.get_beam_centre_lab s0 with
  | .error e => .error e
  | .ok beam_centre =>
    let sintheta := Real.sin (0.5 * max4 (angle3 beam_centre xyz00)
      (angle3 beam_centre xyz01) (angle3 beam_centre xyz10)
      (angle3 beam_centre xyz11))
    if sintheta = 0 then .error "DXTBX_ASSERT: sintheta != 0"
    else .ok (wavelength / (2 * sintheta))

/-- The sine computed by Panel::get_max_resolution_elipse: half the minimum
angle from the beam centre to the four crosshair points on the panel edges. -/
def elipseSinTheta (p : PanelGeom) (s0 : Vec3) : ℝ :=
  let c := p.millimeter_to_pixel (rayIntersectionVal p s0)
  let fast := (p.image_size.1 : ℝ)
  let slow := (p.image_size.2 : ℝ)
  Real.sin (0.5 * min4
    (angle3 (beamCentreLabVal p s0) (p.get_pixel_lab_coord (0, c.2)))
    (angle3 (beamCentreLabVal p s0) (p.get_pixel_lab_coord (c.1, 0)))
    (angle3 (beamCentreLabVal p s0) (p.get_pixel_lab_coord (fast, c.2)))
    (angle3 (beamCentreLabVal p s0) (p.get_pixel_lab_coord (c.1, slow))))

/-- Panel::get_max_resolution_elipse (src/model/panel.h lines 282-303): the
beam centre in pixels (guarded by the ray-intersection assert), the four
crosshair points, the guarded beam centre in the lab frame, half the minimum
crosshair angle — and then the division `wavelength / (2 sintheta)` with no
`sintheta != 0` assert, unlike the two functions above. -/
def PanelGeom.get_max_resolution_elipse (p : PanelGeom) (s0 : Vec3)
    (wavelength : ℝ) : Except String ℝ :=
  match p.get_beam_centre s0 with
  | .error e => .error e
  | .ok bc =>
    let c := p.millimeter_to_pixel bc
    let fast := (p.image_size.1 : ℝ)
    let slow := (p.image_size.2 : ℝ)
    let xyz0c := p.get_pixel_lab_coord (0, c.2)
    let xyz1c := p.get_pixel_lab_coord (fast, c.2)
    let xyzc0 := p.get_pixel_lab_coord (c.1, 0)
    let xyzc1 := p.get_pixel_lab_coord (c.1, slow)
    match p.get_beam_centre_lab s0 with
    | .error e => .error e
    | .ok beam_centre =>
      let sintheta := Real.sin (0.5 * min4 (angle3 beam_centre xyz0c)
        (angle3 beam_centre xyzc0) (angle3 beam_centre xyz1c)
        (angle3 beam_centre xyzc1))
      .ok (wavelength / (2 * sintheta))

end Geometry

/-! Helper list lemmas shared by several proofs below. -/

theorem getD_set_self {α : Type} (l : List α) (n : Nat) (a d : α)
    (h : n < l.length) : (l.set n a).getD n d = a := by
  rw [List.getD_eq_getElem?_getD, List.getElem?_set_eq_of_lt _ h]
  rfl

theorem getD_set_ne {α : Type} (l : List α) (n m : Nat) (a d : α)
    (h : m ≠ n) : (l.set n a).getD m d = l.getD m d := by
  rw [List.getD_eq_getElem?_getD, List.getD_eq_getElem?_getD,
    List.getElem?_set_ne]
  omega

theorem lt_length_of_getD_lt {α : Type} (l : List (List α)) (r x : Nat)
    (h : x < (l.getD r []).length) : r < l.length := by
  by_contra hr
  push_neg at hr
  rw [List.getD_eq_default _ _ hr] at h
  simp at h

theorem getD_range (n i : Nat) (h : i < n) : (List.range n).getD i 0 = i := by
  rw [List.getD_eq_getElem?_getD, List.getElem?_range h]
  rfl

/-! Concrete inputs used by the claim theorems below. -/

/-- The empty model store. -/
def emptyStore : ModelStore :=
  { beams := [], detectors := [], goniometers := [], scans := [] }

/-- An empty external lookup: three items with empty filenames and zero-tile
images. -/
def emptyLookup : ExternalLookup :=
  { mask := { filename := "", data := [] },
    gain := { filename := "", data := [] },
    pedestal := { filename := "", data := [] } }

/-- C1 input: a one-image collection; the raw image is one 1x2 tile
[10, 20]; the external gain lookup holds one zero-size tile (so the tile
counts agree and the gain step is skipped per tile); the external pedestal
lookup holds the 1x2 tile [1, 2]. -/
def c1Data : ImageSetData :=
  { readerData := [[{ shape := (1, 2), data := [10, 20] }]],
    beamsRef := 0, detectorsRef := 0, goniometersRef := 0, scansRef := 0,
    lookup :=
      { mask := { filename := "", data := [] },
        gain := { filename := "", data := [{ shape := (0, 0), data := [] }] },
        pedestal := { filename := "", data := [{ shape := (1, 2), data := [1, 2] }] } } }

/-- The C1 view. -/
def c1Set : ImageSet :=
  ImageSet.ofData c1Data

/-- C1: "For every image index i on an ImageSet whose raw, gain, and pedestal
tile counts agree, get_corrected_data(i) returns, for each tile, the raw
tile promoted to double with, when the pedestal image is non-empty, the
pedestal subtracted elementwise at every element, and, when the gain image
is non-empty, each element divided elementwise by the corresponding gain
value, requiring every gain value used to be > 0 (failing otherwise)."
The code does not subtract elementwise: the correction loops index the
result and pedestal with the tile index `i` instead of the element loop
variable `j` (src/imageset.h lines 398-410), so on raw [10, 20] with
pedestal [1, 2] only element 0 changes, and it has the pedestal value 1
subtracted twice (once per loop iteration): the result is [8, 20], not the
elementwise [9, 18] the claim describes. -/
theorem c1_corrected_data_not_elementwise :
    Except.map Prod.fst (ImageSet.get_corrected_data emptyStore c1Set 0) =
      .ok [({ shape := (1, 2), data := [8, 20] } : Tile ℚ)] ∧
    [({ shape := (1, 2), data := [8, 20] } : Tile ℚ)] ≠
      [({ shape := (1, 2), data := [9, 18] } : Tile ℚ)] := by
  constructor
  · have h : Except.map Prod.fst (ImageSet.get_corrected_data emptyStore c1Set 0) =
        .ok [({ shape := (1, 2), data := [(10 : ℚ) - 1 - 1, 20] } : Tile ℚ)] := rfl
    rw [h]
    norm_num
  · norm_num [Tile.mk.injEq]

/-- C4 input: a panel whose scalar gain is 0 (so gain synthesis is
impossible), a one-image collection whose raw image is one 1x2 tile [5, 7],
and an entirely empty external lookup. -/
def c4Panel : Panel :=
  { ptype := "P", pixel_size := (1, 1), image_size := (2, 1),
    trusted_range := (0, 100), gain := 0, mask := [] }

/-- The C4 data: empty gain and pedestal lookups. -/
def c4Data : ImageSetData :=
  { readerData := [[{ shape := (1, 2), data := [5, 7] }]],
    beamsRef := 0, detectorsRef := 0, goniometersRef := 0, scansRef := 0,
    lookup := emptyLookup }

/-- The C4 store: the detector slot for the single image holds the
zero-gain panel. -/
def c4Store : ModelStore :=
  { beams := [[none]], detectors := [[some [c4Panel]]],
    goniometers := [[none]], scans := [[none]] }

/-- The C4 view. -/
def c4Set : ImageSet :=
  ImageSet.ofData c4Data

/-- C4: "For every image index i on an ImageSet whose external gain and
pedestal lookups are empty (and whose detector prevents gain synthesis,
i.e. some panel gain <= 0), get_corrected_data(i) returns the raw data of
image i promoted to double, numerically unchanged in every element of every
tile."  The code instead fails fatally on every image whose raw data has at
least one tile: with both lookups empty `get_gain` returns a zero-tile
image, and get_corrected_data asserts `data.n_tiles() == gain.n_tiles()`
(src/imageset.h line 379) with no empty-image escape, so 1 != 0 aborts the
call instead of returning the raw data. -/
theorem c4_empty_lookup_fatal :
    c4Set.data.lookup.gain.data = [] ∧
    c4Set.data.lookup.pedestal.data = [] ∧
    (∃ pl ∈ ([c4Panel] : Detector), pl.get_gain ≤ 0) ∧
    ImageSet.get_corrected_data c4Store c4Set 0 =
      .error "DXTBX_ASSERT: data.n_tiles() == gain.n_tiles()" := by
  refine ⟨rfl, rfl, ⟨c4Panel, by simp, by norm_num [c4Panel, Panel.get_gain]⟩, rfl⟩

/-- The state stored by a successful gain synthesis inside
ImageSet::get_gain: `set_filename("")` followed by `set_data(img)` on the
gain item of this view's lookup (src/imageset.h lines 450-451). -/
def storeGain (s : ImageSet) (img : TiledImage ℚ) : ImageSet :=
  ImageSet.set_gain_lookup_data
    { s with data := { s.data with lookup :=
        { s.data.lookup with gain := { s.data.lookup.gain with filename := "" } } } }
    img

/-- The break loop of get_gain accepts exactly the detectors whose panels
all have positive gain. -/
theorem allGainsPositive_iff (l : List Panel) :
    allGainsPositive l = true ↔ ∀ p ∈ l, 0 < p.get_gain := by
  induction l with
  | nil => simp [allGainsPositive]
  | cons p rest ih =>
    by_cases hp : 0 < p.get_gain
    · simp [allGainsPositive, hp, ih]
    · simp [allGainsPositive, hp]

/-- C3 counterexample input: a one-image collection whose detector has zero
panels, with an empty external gain lookup. -/
def c3Data : ImageSetData :=
  { readerData := [[]],
    beamsRef := 0, detectorsRef := 0, goniometersRef := 0, scansRef := 0,
    lookup := emptyLookup }

/-- The C3 counterexample store: the detector slot holds a zero-panel
detector. -/
def c3Store : ModelStore :=
  { beams := [[none]], detectors := [[some []]],
    goniometers := [[none]], scans := [[none]] }

/-- The C3 counterexample view. -/
def c3Set : ImageSet :=
  ImageSet.ofData c3Data

/-- C3 counterexample: with an empty gain lookup and a zero-panel detector
(so that "every panel of the detector has scalar gain > 0" holds vacuously),
get_gain "synthesizes" the empty gain map, stores it, and returns it — and
the external gain lookup is still empty (zero tiles) afterwards, so the
claimed "the lookup is thereafter non-empty for all subsequent calls" fails,
and synthesis re-runs on every later call. -/
theorem c3_empty_detector_counterexample :
    c3Set.data.lookup.gain.data = [] ∧
    ImageSet.get_detector_for_image c3Store c3Set 0 = .ok (some []) ∧
    (∀ pl ∈ ([] : Detector), 0 < pl.get_gain) ∧
    ImageSet.get_gain c3Store c3Set 0 = .ok ([], c3Set) :=
  ⟨rfl, rfl, by simp, rfl⟩

/-- C3 amended: "For every image index i: if the external gain lookup is
empty and every panel of the detector for image i has scalar gain > 0,
get_gain(i) builds a gain map with one uniform tile per panel (value = that
panel's gain, shape = that panel's image size), stores it into the external
gain lookup as a side effect, and returns it — and *provided the detector
has at least one panel* the lookup is thereafter non-empty, so synthesis
runs at most once for this view (a later call with a non-empty lookup
returns it unchanged); if any panel gain is <= 0, the external gain lookup
is left empty (zero tiles) and an empty image is returned."  (The original
claim fails only for a zero-panel detector, where the synthesized map is
itself empty; see the counterexample.) -/
theorem c3_gain_synthesis_amended (st : ModelStore) (s : ImageSet) (i : Nat)
    (det : Detector)
    (hempty : s.data.lookup.gain.data = [])
    (hdet : ImageSet.get_detector_for_image st s i = .ok (some det)) :
    ((∀ pl ∈ det, 0 < pl.get_gain) →
      ImageSet.get_gain st s i = .ok (gainMap det, storeGain s (gainMap det)) ∧
      (storeGain s (gainMap det)).data.lookup.gain.data = gainMap det ∧
      (det ≠ [] → gainMap det ≠ [])) ∧
    ((∃ pl ∈ det, pl.get_gain ≤ 0) →
      ImageSet.get_gain st s i = .ok ([], s)) ∧
    (∀ (s' : ImageSet), s'.data.lookup.gain.data ≠ [] →
      ImageSet.get_gain st s' i = .ok (s'.data.lookup.gain.data, s')) := by
  refine ⟨?_, ?_, ?_⟩
  · intro hall
    have hb : allGainsPositive det = true := (allGainsPositive_iff det).2 hall
    refine ⟨?_, rfl, ?_⟩
    · unfold ImageSet.get_gain
      rw [if_pos hempty, hdet]
      dsimp only
      rw [if_pos hb]
      rfl
    · intro hne
      simp [gainMap, hne]
  · rintro ⟨pl, hmem, hle⟩
    have hb : allGainsPositive det = false := by
      cases h : allGainsPositive det
      · rfl
      · exact absurd ((allGainsPositive_iff det).1 h pl hmem) (not_lt.2 hle)
    unfold ImageSet.get_gain
    rw [if_pos hempty, hdet]
    dsimp only
    rw [if_neg (by simp [hb]), hempty]
  · intro s' hne
    unfold ImageSet.get_gain
    rw [if_neg hne]

/-- The uniform-gain-2 panel of the spec scenario for C3. -/
def c3wPanel : Panel :=
  { ptype := "P", pixel_size := (1, 1), image_size := (2, 2),
    trusted_range := (0, 100), gain := 2, mask := [] }

/-- The C3 witness data: a five-image collection with an empty gain
lookup. -/
def c3wData : ImageSetData :=
  { readerData := [[], [], [], [], []],
    beamsRef := 0, detectorsRef := 0, goniometersRef := 0, scansRef := 0,
    lookup := emptyLookup }

/-- The C3 witness store: the detector slot of image 0 holds the one-panel
gain-2 detector. -/
def c3wStore : ModelStore :=
  { beams := [[none]], detectors := [[some [c3wPanel]]],
    goniometers := [[none]], scans := [[none]] }

/-- The C3 witness view. -/
def c3wSet : ImageSet :=
  ImageSet.ofData c3wData

/-- C3 witness: on a five-image collection with empty gain lookup and every
panel gain 2, get_gain(0) synthesizes and stores the uniform gain map and
the stored lookup is non-empty. -/
theorem c3_gain_synthesis_amended_witness :
    c3wSet.data.lookup.gain.data = [] ∧
    ImageSet.get_detector_for_image c3wStore c3wSet 0 = .ok (some [c3wPanel]) ∧
    (∀ pl ∈ [c3wPanel], 0 < pl.get_gain) ∧
    (ImageSet.get_gain c3wStore c3wSet 0 =
        .ok (gainMap [c3wPanel], storeGain c3wSet (gainMap [c3wPanel])) ∧
      (storeGain c3wSet (gainMap [c3wPanel])).data.lookup.gain.data =
        gainMap [c3wPanel] ∧
      ([c3wPanel] ≠ [] → gainMap [c3wPanel] ≠ [])) :=
  ⟨rfl, rfl, by norm_num [c3wPanel, Panel.get_gain],
   (c3_gain_synthesis_amended c3wStore c3wSet 0 [c3wPanel] rfl rfl).1
     (by norm_num [c3wPanel, Panel.get_gain])⟩

/-- C2 counterexample input: a one-image collection with empty lookup. -/
def c2Data : ImageSetData :=
  { readerData := [[]],
    beamsRef := 0, detectorsRef := 0, goniometersRef := 0, scansRef := 0,
    lookup := emptyLookup }

/-- The first C2 view over `c2Data`. -/
def c2v1 : ImageSet :=
  ImageSet.ofData c2Data

/-- The second C2 view over the same `c2Data`. -/
def c2v2 : ImageSet :=
  ImageSet.ofData c2Data

/-- A non-empty gain image used for the C2 mutation. -/
def c2img : TiledImage ℚ :=
  [{ shape := (1, 1), data := [3] }]

/-- C2 counterexample: "For any two ImageSet views constructed from the
same ImageSetData, any mutation performed through one view to ... the
ExternalLookup (mask/gain/pedestal items) is immediately visible when read
through the other view."  False: each view's `data_` member is a value copy
of the ImageSetData (src/imageset.h lines 301-320, 701-706); mutating the
gain item through view 1 (an assignment to view 1's own copy, lines 87-89
and 246-248) leaves view 2's gain item untouched: after the mutation view 1
reads back the new image while view 2 still reads the original empty one. -/
theorem c2_lookup_mutation_not_shared_counterexample :
    (ImageSet.set_gain_lookup_data c2v1 c2img).data.lookup.gain.data = c2img ∧
    c2v2.data.lookup.gain.data = [] ∧
    c2img ≠ [] :=
  ⟨rfl, rfl, by simp [c2img]⟩

/-- C2 amended: the per-image model slots (beam/detector/goniometer/scan)
are `scitbx::af::shared` arrays, so they really are shared between views
constructed from the same ImageSetData: a per-image model mutation through
one view is immediately visible when read through the other view.  The
ExternalLookup, by contrast, is a value member of each view's ImageSetData
copy: mutating a lookup item through one view updates only that view and is
never visible through the other, whose lookup keeps the original data. -/
theorem c2_sharing_amended (st st' : ModelStore) (d : ImageSetData) (i : Nat)
    (b : Beam) (dt : Detector) (g : Goniometer) (sc : Scan)
    (img : TiledImage ℚ) (bimg : TiledImage Bool) :
    (ImageSet.set_beam_for_image st (ImageSet.ofData d) i (some b) = .ok st' →
      ImageSet.get_beam_for_image st' (ImageSet.ofData d) i = .ok (some b)) ∧
    (ImageSet.set_detector_for_image st (ImageSet.ofData d) i (some dt) = .ok st' →
      ImageSet.get_detector_for_image st' (ImageSet.ofData d) i = .ok (some dt)) ∧
    (ImageSet.set_goniometer_for_image st (ImageSet.ofData d) i (some g) = .ok st' →
      ImageSet.get_goniometer_for_image st' (ImageSet.ofData d) i = .ok (some g)) ∧
    (ImageSet.set_scan_for_image st (ImageSet.ofData d) i (some sc) = .ok st' →
      ImageSet.get_scan_for_image st' (ImageSet.ofData d) i = .ok (some sc)) ∧
    ((ImageSet.set_gain_lookup_data (ImageSet.ofData d) img).data.lookup.gain.data = img ∧
      (ImageSet.ofData d).data.lookup.gain.data = d.lookup.gain.data) ∧
    ((ImageSet.set_mask_lookup_data (ImageSet.ofData d) bimg).data.lookup.mask.data = bimg ∧
      (ImageSet.ofData d).data.lookup.mask.data = d.lookup.mask.data) ∧
    ((ImageSet.set_pedestal_lookup_data (ImageSet.ofData d) img).data.lookup.pedestal.data = img ∧
      (ImageSet.ofData d).data.lookup.pedestal.data = d.lookup.pedestal.data) := by
  refine ⟨?_, ?_, ?_, ?_, ⟨rfl, rfl⟩, ⟨rfl, rfl⟩, ⟨rfl, rfl⟩⟩
  · intro h
    simp only [ImageSet.set_beam_for_image, ImageSet.ofData] at h
    by_cases hi : i < (List.range d.size).length
    · rw [if_pos hi] at h
      simp only [ImageSetData.set_beam] at h
      by_cases hp : (List.range d.size).getD i 0 < (st.beams.getD d.beamsRef []).length
      · rw [if_pos hp] at h
        cases h
        have href : d.beamsRef < st.beams.length :=
          lt_length_of_getD_lt _ _ _ hp
        simp only [ImageSet.get_beam_for_image, ImageSet.ofData,
          ImageSetData.get_beam]
        rw [if_pos hi, getD_set_self _ _ _ _ href]
        rw [if_pos (by simpa using hp), getD_set_self _ _ _ _ hp]
      · rw [if_neg hp] at h
        exact absurd h (by simp)
    · rw [if_neg hi] at h
      exact absurd h (by simp)
  · intro h
    simp only [ImageSet.set_detector_for_image, ImageSet.ofData] at h
    by_cases hi : i < (List.range d.size).length
    · rw [if_pos hi] at h
      simp only [ImageSetData.set_detector] at h
      by_cases hp : (List.range d.size).getD i 0 < (st.detectors.getD d.detectorsRef []).length
      · rw [if_pos hp] at h
        cases h
        have href : d.detectorsRef < st.detectors.length :=
          lt_length_of_getD_lt _ _ _ hp
        simp only [ImageSet.get_detector_for_image, ImageSet.ofData,
          ImageSetData.get_detector]
        rw [if_pos hi, getD_set_self _ _ _ _ href]
        rw [if_pos (by simpa using hp), getD_set_self _ _ _ _ hp]
      · rw [if_neg hp] at h
        exact absurd h (by simp)
    · rw [if_neg hi] at h
      exact absurd h (by simp)
  · intro h
    simp only [ImageSet.set_goniometer_for_image, ImageSet.ofData] at h
    by_cases hi : i < (List.range d.size).length
    · rw [if_pos hi] at h
      simp only [ImageSetData.set_goniometer] at h
      by_cases hp : (List.range d.size).getD i 0 < (st.goniometers.getD d.goniometersRef []).length
      · rw [if_pos hp] at h
        cases h
        have href : d.goniometersRef < st.goniometers.length :=
          lt_length_of_getD_lt _ _ _ hp
        simp only [ImageSet.get_goniometer_for_image, ImageSet.ofData,
          ImageSetData.get_goniometer]
        rw [if_pos hi, getD_set_self _ _ _ _ href]
        rw [if_pos (by simpa using hp), getD_set_self _ _ _ _ hp]
      · rw [if_neg hp] at h
        exact absurd h (by simp)
    · rw [if_neg hi] at h
      exact absurd h (by simp)
  · intro h
    simp only [ImageSet.set_scan_for_image, ImageSet.ofData] at h
    by_cases hc : sc.numImages = 1
    · rw [if_pos hc] at h
      by_cases hi : i < (List.range d.size).length
      · rw [if_pos hi] at h
        simp only [ImageSetData.set_scan] at h
        by_cases hp : (List.range d.size).getD i 0 < (st.scans.getD d.scansRef []).length
        · rw [if_pos hp] at h
          cases h
          have href : d.scansRef < st.scans.length :=
            lt_length_of_getD_lt _ _ _ hp
          simp only [ImageSet.get_scan_for_image, ImageSet.ofData,
            ImageSetData.get_scan]
          rw [if_pos hi, getD_set_self _ _ _ _ href]
          rw [if_pos (by simpa using hp), getD_set_self _ _ _ _ hp]
        · rw [if_neg hp] at h
          exact absurd h (by simp)
      · rw [if_neg hi] at h
        exact absurd h (by simp)
    · rw [if_neg hc] at h
      exact absurd h (by simp)

/-- The C2 witness store before the mutation. -/
def c2wStore : ModelStore :=
  { beams := [[none]], detectors := [[none]],
    goniometers := [[none]], scans := [[none]] }

/-- The C2 witness store after the beam mutation through view 1. -/
def c2wStore2 : ModelStore :=
  { beams := [[some { tag := 7 }]], detectors := [[none]],
    goniometers := [[none]], scans := [[none]] }

/-- C2 witness: setting the beam of image 0 through one view over `c2Data`
is read back through the other view over the same data. -/
theorem c2_sharing_amended_witness :
    ImageSet.set_beam_for_image c2wStore (ImageSet.ofData c2Data) 0
        (some { tag := 7 }) = .ok c2wStore2 ∧
    ImageSet.get_beam_for_image c2wStore2 (ImageSet.ofData c2Data) 0 =
      .ok (some { tag := 7 }) :=
  ⟨rfl,
   (c2_sharing_amended c2wStore c2wStore2 c2Data 0 { tag := 7 } [] { tag := 0 }
       { arrayStart := 0, numImages := 1 } [] []).1 rfl⟩

/-- C7: "For every Panel with both pixel-size components positive and every
2D point p, millimeter_to_pixel(pixel_to_millimeter(p)) == p exactly (the
two maps are inverse elementwise scalings)."  Both maps are the elementwise
scalings of src/model/panel.h lines 324-331; exact arithmetic on the ℚ
carrier. -/
theorem c7_mm_px_roundtrip (p : Panel) (xy : ℚ × ℚ)
    (h1 : 0 < p.pixel_size.1) (h2 : 0 < p.pixel_size.2) :
    p.millimeter_to_pixel (p.pixel_to_millimeter xy) = xy := by
  simp only [Panel.millimeter_to_pixel, Panel.pixel_to_millimeter]
  rw [mul_div_cancel_right₀ _ h1.ne', mul_div_cancel_right₀ _ h2.ne']

/-- The concrete panel used by the C7 witness. -/
def c7Panel : Panel :=
  { ptype := "P", pixel_size := (1/10, 1/4), image_size := (100, 100),
    trusted_range := (0, 100), gain := 1, mask := [] }

/-- C7 witness: the round trip at pixel size (1/10, 1/4) and point (3, 7). -/
theorem c7_mm_px_roundtrip_witness :
    0 < c7Panel.pixel_size.1 ∧ 0 < c7Panel.pixel_size.2 ∧
    c7Panel.millimeter_to_pixel (c7Panel.pixel_to_millimeter (3, 7)) = (3, 7) :=
  ⟨by norm_num [c7Panel], by norm_num [c7Panel],
   c7_mm_px_roundtrip c7Panel (3, 7) (by norm_num [c7Panel]) (by norm_num [c7Panel])⟩

/-- C10: "Implicit: for every call Panel::add_mask(f0, s0, f1, s1), the
region appended to the mask list is stored with components in the order
(f0, f1, s0, s1), i.e. the second and third arguments are swapped relative
to the (f0, s0, f1, s1) rectangular-region convention of the data model, so
get_mask() afterwards returns the region in this permuted component order."
src/model/panel.h line 160 pushes `int4(f0, f1, s0, s1)`. -/
theorem c10_add_mask_order (p : Panel) (f0 s0 f1 s1 : Int) :
    (p.add_mask f0 s0 f1 s1).get_mask = p.get_mask ++ [(f0, f1, s0, s1)] :=
  rfl

/-- C6: "For every ImageGrid, complete_set() and partial_set(first,last)
fail fatally for all arguments; for every ImageSweep, complete_set(),
partial_set(first,last), and each of set_beam_for_image,
set_detector_for_image, set_goniometer_for_image, set_scan_for_image fail
fatally for all arguments, leaving the underlying ImageSetData unchanged."
All eight overrides are unconditional DXTBX_ERROR calls (src/imageset.h
lines 775-789, 956-979, 995-1009); none of them ever produces a new model
store, so the underlying data is untouched. -/
theorem c6_grid_sweep_restrictions :
    (∀ (g : ImageGrid), g.complete_set =
      .error "DXTBX_ERROR: Cannot get complete set from image grid") ∧
    (∀ (g : ImageGrid) (first last : Nat), g.part_set first last =
      .error "DXTBX_ERROR: Cannot get partial set from image grid") ∧
    (∀ (sw : ImageSweep), sw.complete_set =
      .error "DXTBX_ERROR: Cannot get complete set from image sweep") ∧
    (∀ (sw : ImageSweep) (first last : Nat), sw.part_set first last =
      .error "DXTBX_ERROR: Cannot get partial set from image sweep") ∧
    (∀ (st : ModelStore) (sw : ImageSweep) (i : Nat) (b : Option Beam),
      ImageSweep.set_beam_for_image st sw i b =
        .error "DXTBX_ERROR: Cannot set per-image model in sweep") ∧
    (∀ (st : ModelStore) (sw : ImageSweep) (i : Nat) (dt : Option Detector),
      ImageSweep.set_detector_for_image st sw i dt =
        .error "DXTBX_ERROR: Cannot set per-image model in sweep") ∧
    (∀ (st : ModelStore) (sw : ImageSweep) (i : Nat) (g : Option Goniometer),
      ImageSweep.set_goniometer_for_image st sw i g =
        .error "DXTBX_ERROR: Cannot set per-image model in sweep") ∧
    (∀ (st : ModelStore) (sw : ImageSweep) (i : Nat) (sc : Option Scan),
      ImageSweep.set_scan_for_image st sw i sc =
        .error "DXTBX_ERROR: Cannot set per-image model in sweep") :=
  ⟨fun _ => rfl, fun _ _ _ => rfl, fun _ => rfl, fun _ _ _ => rfl,
   fun _ _ _ _ => rfl, fun _ _ _ _ => rfl, fun _ _ _ _ => rfl,
   fun _ _ _ _ => rfl⟩

/-- C8: "Implicit: the base ImageSet::set_scan_for_image(index, scan)
requires the supplied scan pointer to be null or to have exactly one image
(get_num_images() == 1), failing fatally otherwise" (src/imageset.h line
619; the assert precedes the index bound check, so it fires for every
index); when the precondition holds and the indices are in range the setter
succeeds. -/
theorem c8_scan_setter_precondition :
    (∀ (st : ModelStore) (s : ImageSet) (i : Nat) (sc : Scan),
      sc.numImages ≠ 1 →
      ImageSet.set_scan_for_image st s i (some sc) =
        .error "DXTBX_ASSERT: scan == NULL || scan num_images == 1") ∧
    (∀ (st : ModelStore) (s : ImageSet) (i : Nat) (sc : Option Scan),
      (sc = none ∨ ∃ c, sc = some c ∧ c.numImages = 1) →
      i < s.indices.length →
      s.indices.getD i 0 < (st.scans.getD s.data.scansRef []).length →
      ∃ st', ImageSet.set_scan_for_image st s i sc = .ok st') := by
  constructor
  · intro st s i sc hne
    simp [ImageSet.set_scan_for_image, hne]
  · intro st s i sc hsc hi hp
    rcases hsc with rfl | ⟨c, rfl, hc⟩
    · simp only [ImageSet.set_scan_for_image, ImageSetData.set_scan]
      rw [if_pos hi, if_pos hp]
      exact ⟨_, rfl⟩
    · simp only [ImageSet.set_scan_for_image, ImageSetData.set_scan]
      rw [if_pos hc, if_pos hi, if_pos hp]
      exact ⟨_, rfl⟩

/-- The concrete inputs of the C8 witness: a two-image store and view. -/
def c8Data : ImageSetData :=
  { readerData := [[], []],
    beamsRef := 0, detectorsRef := 0, goniometersRef := 0, scansRef := 0,
    lookup := emptyLookup }

/-- The C8 view. -/
def c8Set : ImageSet :=
  ImageSet.ofData c8Data

/-- The C8 store. -/
def c8Store : ModelStore :=
  { beams := [[none, none]], detectors := [[none, none]],
    goniometers := [[none, none]], scans := [[none, none]] }

/-- C8 witness: a two-image scan is rejected; a one-image scan at a valid
index is accepted. -/
theorem c8_scan_setter_precondition_witness :
    (({ arrayStart := 0, numImages := 2 } : Scan).numImages ≠ 1 ∧
      ImageSet.set_scan_for_image c8Store c8Set 0
          (some { arrayStart := 0, numImages := 2 }) =
        .error "DXTBX_ASSERT: scan == NULL || scan num_images == 1") ∧
    (∃ st', ImageSet.set_scan_for_image c8Store c8Set 1
        (some { arrayStart := 0, numImages := 1 }) = .ok st') :=
  ⟨⟨by decide, c8_scan_setter_precondition.1 c8Store c8Set 0 _ (by decide)⟩,
   c8_scan_setter_precondition.2 c8Store c8Set 1 _
     (Or.inr ⟨_, rfl, rfl⟩) (by decide) (by decide)⟩

/-! Helper lemmas for the ImageSweep constructor claim. -/

theorem getD_mem (l : List Nat) (i : Nat) (h : i < l.length) : l.getD i 0 ∈ l := by
  rw [List.getD_eq_getElem _ _ h]
  exact List.getElem_mem _

theorem foldl_max_init_le (l : List Nat) : ∀ acc, acc ≤ l.foldl Nat.max acc := by
  induction l with
  | nil => intro acc; simp
  | cons a t ih =>
    intro acc
    exact le_trans (Nat.le_max_left acc a) (ih (Nat.max acc a))

theorem foldl_max_mem_le (l : List Nat) : ∀ acc x, x ∈ l → x ≤ l.foldl Nat.max acc := by
  induction l with
  | nil => intro _ _ h; cases h
  | cons a t ih =>
    intro acc x hx
    rcases List.mem_cons.1 hx with rfl | hx
    · exact le_trans (Nat.le_max_right acc x) (foldl_max_init_le t _)
    · exact ih _ x hx

theorem le_maxList (l : List Nat) (x : Nat) (hx : x ∈ l) : x ≤ maxList l :=
  foldl_max_mem_le l 0 x hx

/-- The single-slot beam write performed by ImageSetData::set_beam when its
bound check passes. -/
def writeBeam (st : ModelStore) (r p : Nat) (v : Option Beam) : ModelStore :=
  { st with beams := st.beams.set r ((st.beams.getD r []).set p v) }

/-- The single-slot detector write of ImageSetData::set_detector. -/
def writeDetector (st : ModelStore) (r p : Nat) (v : Option Detector) : ModelStore :=
  { st with detectors := st.detectors.set r ((st.detectors.getD r []).set p v) }

/-- The single-slot goniometer write of ImageSetData::set_goniometer. -/
def writeGoniometer (st : ModelStore) (r p : Nat) (v : Option Goniometer) : ModelStore :=
  { st with goniometers := st.goniometers.set r ((st.goniometers.getD r []).set p v) }

/-- The single-slot scan write of ImageSetData::set_scan. -/
def writeScan (st : ModelStore) (r p : Nat) (v : Option Scan) : ModelStore :=
  { st with scans := st.scans.set r ((st.scans.getD r []).set p v) }

theorem seqCheck_getD (l : List Nat) (h : seqCheck l = true) :
    ∀ k, k + 1 < l.length → l.getD (k + 1) 0 = l.getD k 0 + 1 := by
  induction l with
  | nil => intro k hk; simp at hk
  | cons a t ih =>
    cases t with
    | nil => intro k hk; simp at hk
    | cons b r =>
      have h1 : b = a + 1 ∧ seqCheck (b :: r) = true := by
        by_cases hb : b = a + 1
        · exact ⟨hb, by simpa [seqCheck, hb] using h⟩
        · simp [seqCheck, hb] at h
      intro k hk
      cases k with
      | zero => simpa using h1.1
      | succ k =>
        have := ih h1.2 k (by simpa using hk)
        simpa using this

theorem seqCheck_arith (l : List Nat) (h : seqCheck l = true) :
    ∀ k, k < l.length → l.getD k 0 = l.getD 0 0 + k := by
  intro k
  induction k with
  | zero => intro _; rfl
  | succ k ih =>
    intro hk
    rw [seqCheck_getD l h k hk, ih (by omega)]
    omega

/-- The effect of the ImageSweep broadcast loop: it succeeds when every
logical index is in range and every physical slot index is within each slot
array, and afterwards every processed physical slot holds the shared
beam/detector/goniometer and the sliced scan; untouched positions and the
array lengths are preserved. -/
theorem sweepLoop_spec (s : ImageSet) (b : Beam) (dt : Detector)
    (g : Goniometer) (sc : Scan) :
    ∀ (L : List Nat) (st : ModelStore),
    (∀ i ∈ L, i < s.indices.length) →
    (∀ i ∈ L, s.indices.getD i 0 < (st.beams.getD s.data.beamsRef []).length) →
    (∀ i ∈ L, s.indices.getD i 0 < (st.detectors.getD s.data.detectorsRef []).length) →
    (∀ i ∈ L, s.indices.getD i 0 < (st.goniometers.getD s.data.goniometersRef []).length) →
    (∀ i ∈ L, s.indices.getD i 0 < (st.scans.getD s.data.scansRef []).length) →
    (L.map (fun i => s.indices.getD i 0)).Nodup →
    ∃ st', sweepLoop s b dt g sc st L = .ok st' ∧
      (∀ i ∈ L,
        (st'.beams.getD s.data.beamsRef []).getD (s.indices.getD i 0) none = some b ∧
        (st'.detectors.getD s.data.detectorsRef []).getD (s.indices.getD i 0) none = some dt ∧
        (st'.goniometers.getD s.data.goniometersRef []).getD (s.indices.getD i 0) none = some g ∧
        (st'.scans.getD s.data.scansRef []).getD (s.indices.getD i 0) none = some (sc.slice i)) ∧
      (∀ j : Nat, j ∉ L.map (fun i => s.indices.getD i 0) →
        (st'.beams.getD s.data.beamsRef []).getD j none = (st.beams.getD s.data.beamsRef []).getD j none ∧
        (st'.detectors.getD s.data.detectorsRef []).getD j none = (st.detectors.getD s.data.detectorsRef []).getD j none ∧
        (st'.goniometers.getD s.data.goniometersRef []).getD j none = (st.goniometers.getD s.data.goniometersRef []).getD j none ∧
        (st'.scans.getD s.data.scansRef []).getD j none = (st.scans.getD s.data.scansRef []).getD j none) ∧
      ((st'.beams.getD s.data.beamsRef []).length = (st.beams.getD s.data.beamsRef []).length ∧
        (st'.detectors.getD s.data.detectorsRef []).length = (st.detectors.getD s.data.detectorsRef []).length ∧
        (st'.goniometers.getD s.data.goniometersRef []).length = (st.goniometers.getD s.data.goniometersRef []).length ∧
        (st'.scans.getD s.data.scansRef []).length = (st.scans.getD s.data.scansRef []).length) := by
  intro L
  induction L with
  | nil =>
    intro st _ _ _ _ _ _
    exact ⟨st, rfl, by simp, fun j _ => ⟨rfl, rfl, rfl, rfl⟩, ⟨rfl, rfl, rfl, rfl⟩⟩
  | cons i L' ih =>
    intro st hidx hb0 hd0 hg0 hs0 hnd
    have hi : i < s.indices.length := hidx i (by simp)
    have hbi : s.indices.getD i 0 < (st.beams.getD s.data.beamsRef []).length :=
      hb0 i (by simp)
    have hdi : s.indices.getD i 0 < (st.detectors.getD s.data.detectorsRef []).length :=
      hd0 i (by simp)
    have hgi : s.indices.getD i 0 < (st.goniometers.getD s.data.goniometersRef []).length :=
      hg0 i (by simp)
    have hsi : s.indices.getD i 0 < (st.scans.getD s.data.scansRef []).length :=
      hs0 i (by simp)
    set phys := s.indices.getD i 0 with hphys
    -- the four successive writes of one loop iteration
    set st1 := writeBeam st s.data.beamsRef phys (some b) with hst1
    set st2 := writeDetector st1 s.data.detectorsRef phys (some dt) with hst2
    set st3 := writeGoniometer st2 s.data.goniometersRef phys (some g) with hst3
    set st4 := writeScan st3 s.data.scansRef phys (some (sc.slice i)) with hst4
    have hw1 : ImageSet.set_beam_for_image st s i (some b) = .ok st1 := by
      simp only [ImageSet.set_beam_for_image, ImageSetData.set_beam]
      rw [if_pos hi, if_pos hbi]
      rfl
    have hw2 : ImageSet.set_detector_for_image st1 s i (some dt) = .ok st2 := by
      simp only [ImageSet.set_detector_for_image, ImageSetData.set_detector]
      rw [if_pos hi, if_pos (show phys < (st1.detectors.getD s.data.detectorsRef []).length from hdi)]
      rfl
    have hw3 : ImageSet.set_goniometer_for_image st2 s i (some g) = .ok st3 := by
      simp only [ImageSet.set_goniometer_for_image, ImageSetData.set_goniometer]
      rw [if_pos hi, if_pos (show phys < (st2.goniometers.getD s.data.goniometersRef []).length from hgi)]
      rfl
    have hw4 : ImageSet.set_scan_for_image st3 s i (some (sc.slice i)) = .ok st4 := by
      simp only [ImageSet.set_scan_for_image, ImageSetData.set_scan, Scan.slice]
      rw [if_pos hi, if_pos (show phys < (st3.scans.getD s.data.scansRef []).length from hsi)]
      rfl
    have hrefb : s.data.beamsRef < st.beams.length := lt_length_of_getD_lt _ _ _ hbi
    have hrefd : s.data.detectorsRef < st.detectors.length := lt_length_of_getD_lt _ _ _ hdi
    have hrefg : s.data.goniometersRef < st.goniometers.length := lt_length_of_getD_lt _ _ _ hgi
    have hrefs : s.data.scansRef < st.scans.length := lt_length_of_getD_lt _ _ _ hsi
    have harr1 : st4.beams.getD s.data.beamsRef [] =
        (st.beams.getD s.data.beamsRef []).set phys (some b) := by
      simp only [hst4, hst3, hst2, hst1, writeBeam, writeDetector, writeGoniometer, writeScan]
      exact getD_set_self _ _ _ _ hrefb
    have harr2 : st4.detectors.getD s.data.detectorsRef [] =
        (st.detectors.getD s.data.detectorsRef []).set phys (some dt) := by
      simp only [hst4, hst3, hst2, hst1, writeBeam, writeDetector, writeGoniometer, writeScan]
      exact getD_set_self _ _ _ _ hrefd
    have harr3 : st4.goniometers.getD s.data.goniometersRef [] =
        (st.goniometers.getD s.data.goniometersRef []).set phys (some g) := by
      simp only [hst4, hst3, hst2, hst1, writeBeam, writeDetector, writeGoniometer, writeScan]
      exact getD_set_self _ _ _ _ hrefg
    have harr4 : st4.scans.getD s.data.scansRef [] =
        (st.scans.getD s.data.scansRef []).set phys (some (sc.slice i)) := by
      simp only [hst4, hst3, hst2, hst1, writeBeam, writeDetector, writeGoniometer, writeScan]
      exact getD_set_self _ _ _ _ hrefs
    -- bounds carry over to st4 and the tail of the list
    obtain ⟨st', hrun, hmem, hframe, hlen⟩ := ih st4
      (fun i' h' => hidx i' (by simp [h']))
      (fun i' h' => by rw [harr1]; simpa using hb0 i' (by simp [h']))
      (fun i' h' => by rw [harr2]; simpa using hd0 i' (by simp [h']))
      (fun i' h' => by rw [harr3]; simpa using hg0 i' (by simp [h']))
      (fun i' h' => by rw [harr4]; simpa using hs0 i' (by simp [h']))
      (by simpa using hnd.of_cons)
    have hphys_not : phys ∉ L'.map (fun i => s.indices.getD i 0) := by
      have h2 := hnd
      simp only [List.map_cons, List.nodup_cons] at h2
      exact h2.1
    refine ⟨st', ?_, ?_, ?_, ?_⟩
    · show sweepLoop s b dt g sc st (i :: L') = .ok st'
      simp only [sweepLoop, hw1, hw2, hw3, hw4]
      exact hrun
    · intro i' hi'
      rcases List.mem_cons.1 hi' with rfl | hi'
      · have hfr := hframe phys hphys_not
        refine ⟨?_, ?_, ?_, ?_⟩
        · rw [hfr.1, harr1]; exact getD_set_self _ _ _ _ hbi
        · rw [hfr.2.1, harr2]; exact getD_set_self _ _ _ _ hdi
        · rw [hfr.2.2.1, harr3]; exact getD_set_self _ _ _ _ hgi
        · rw [hfr.2.2.2, harr4]; exact getD_set_self _ _ _ _ hsi
      · exact hmem i' hi'
    · intro j hj
      have hj1 : j ≠ phys := by
        intro hje
        exact hj (by simp [hje, hphys])
      have hj2 : j ∉ L'.map (fun i => s.indices.getD i 0) := by
        intro hje
        apply hj
        rw [List.map_cons]
        exact List.mem_cons_of_mem _ hje
      have hfr := hframe j hj2
      refine ⟨?_, ?_, ?_, ?_⟩
      · rw [hfr.1, harr1]; exact getD_set_ne _ _ _ _ _ hj1
      · rw [hfr.2.1, harr2]; exact getD_set_ne _ _ _ _ _ hj1
      · rw [hfr.2.2.1, harr3]; exact getD_set_ne _ _ _ _ _ hj1
      · rw [hfr.2.2.2, harr4]; exact getD_set_ne _ _ _ _ _ hj1
    · refine ⟨?_, ?_, ?_, ?_⟩
      · rw [hlen.1, harr1]; simp
      · rw [hlen.2.1, harr2]; simp
      · rw [hlen.2.2.1, harr3]; simp
      · rw [hlen.2.2.2, harr4]; simp

/-- C5: "ImageSweep construction fails fatally whenever the supplied scan's
number of images differs from the number of indices in the view, and the
indexed ImageSweep constructor additionally fails fatally whenever the
supplied physical indices are not contiguous and strictly increasing by 1;
when these preconditions hold, construction succeeds and broadcasts the
shared beam/detector/goniometer and per-index sliced scan into every
physical slot."  The success parts additionally assume the ImageSet-level
invariants the view needs to exist at all (spec section 3): the indices are
nonempty and below the data size, and each slot array has one slot per
physical image. -/
theorem c5_sweep_construction :
    (∀ (st : ModelStore) (d : ImageSetData) (b : Beam) (dt : Detector)
        (g : Goniometer) (sc : Scan), sc.numImages ≠ d.size →
      ImageSweep.ofData st d b dt g sc =
        .error "DXTBX_ASSERT: data.size() == scan.get_num_images()") ∧
    (∀ (st : ModelStore) (d : ImageSetData) (idxs : List Nat) (b : Beam)
        (dt : Detector) (g : Goniometer) (sc : Scan),
      sc.numImages ≠ idxs.length →
      (ImageSweep.ofDataIndices st d idxs b dt g sc).isOk = false) ∧
    (∀ (st : ModelStore) (d : ImageSetData) (idxs : List Nat) (b : Beam)
        (dt : Detector) (g : Goniometer) (sc : Scan),
      seqCheck idxs = false →
      (ImageSweep.ofDataIndices st d idxs b dt g sc).isOk = false) ∧
    (∀ (st : ModelStore) (d : ImageSetData) (idxs : List Nat) (b : Beam)
        (dt : Detector) (g : Goniometer) (sc : Scan),
      idxs ≠ [] → maxList idxs < d.size →
      sc.numImages = idxs.length → seqCheck idxs = true →
      (st.beams.getD d.beamsRef []).length = d.size →
      (st.detectors.getD d.detectorsRef []).length = d.size →
      (st.goniometers.getD d.goniometersRef []).length = d.size →
      (st.scans.getD d.scansRef []).length = d.size →
      ∃ st' sw, ImageSweep.ofDataIndices st d idxs b dt g sc = .ok (st', sw) ∧
        sw.toImageSet.indices = idxs ∧ sw.beam = b ∧ sw.detector = dt ∧
        sw.goniometer = g ∧ sw.scan = sc ∧
        ∀ k, k < idxs.length →
          (st'.beams.getD d.beamsRef []).getD (idxs.getD k 0) none = some b ∧
          (st'.detectors.getD d.detectorsRef []).getD (idxs.getD k 0) none = some dt ∧
          (st'.goniometers.getD d.goniometersRef []).getD (idxs.getD k 0) none = some g ∧
          (st'.scans.getD d.scansRef []).getD (idxs.getD k 0) none = some (sc.slice k)) ∧
    (∀ (st : ModelStore) (d : ImageSetData) (b : Beam) (dt : Detector)
        (g : Goniometer) (sc : Scan),
      sc.numImages = d.size →
      (st.beams.getD d.beamsRef []).length = d.size →
      (st.detectors.getD d.detectorsRef []).length = d.size →
      (st.goniometers.getD d.goniometersRef []).length = d.size →
      (st.scans.getD d.scansRef []).length = d.size →
      ∃ st' sw, ImageSweep.ofData st d b dt g sc = .ok (st', sw) ∧
        sw.beam = b ∧ sw.detector = dt ∧ sw.goniometer = g ∧ sw.scan = sc ∧
        ∀ k, k < d.size →
          (st'.beams.getD d.beamsRef []).getD k none = some b ∧
          (st'.detectors.getD d.detectorsRef []).getD k none = some dt ∧
          (st'.goniometers.getD d.goniometersRef []).getD k none = some g ∧
          (st'.scans.getD d.scansRef []).getD k none = some (sc.slice k)) := by
  refine ⟨?_, ?_, ?_, ?_, ?_⟩
  · intro st d b dt g sc hne
    unfold ImageSweep.ofData
    rw [if_neg (fun h => hne h.symm)]
  · intro st d idxs b dt g sc hne
    cases idxs with
    | nil => rfl
    | cons a t =>
      by_cases hm : maxList (a :: t) < d.size
      · unfold ImageSweep.ofDataIndices ImageSet.ofDataIndices
        dsimp only
        rw [if_pos hm]
        dsimp only
        rw [if_neg (fun h => hne h.symm)]
        rfl
      · unfold ImageSweep.ofDataIndices ImageSet.ofDataIndices
        dsimp only
        rw [if_neg hm]
        rfl
  · intro st d idxs b dt g sc hseq
    cases idxs with
    | nil => simp [seqCheck] at hseq
    | cons a t =>
      by_cases hm : maxList (a :: t) < d.size
      · unfold ImageSweep.ofDataIndices ImageSet.ofDataIndices
        dsimp only
        rw [if_pos hm]
        dsimp only
        by_cases hn : (a :: t).length = sc.numImages
        · rw [if_pos hn, if_neg (by simp [hseq])]
          rfl
        · rw [if_neg hn]
          rfl
      · unfold ImageSweep.ofDataIndices ImageSet.ofDataIndices
        dsimp only
        rw [if_neg hm]
        rfl
  · intro st d idxs b dt g sc hne hmax hnum hseq hlb hld hlg hls
    have hbase : ImageSet.ofDataIndices d idxs =
        .ok { data := d, indices := idxs, cacheIndex := -1, cacheImage := [] } := by
      cases idxs with
      | nil => exact absurd rfl hne
      | cons a t =>
        unfold ImageSet.ofDataIndices
        dsimp only
        rw [if_pos hmax]
    have harith := seqCheck_arith idxs hseq
    obtain ⟨st', hrun, hmem', _, _⟩ :=
      sweepLoop_spec { data := d, indices := idxs, cacheIndex := -1, cacheImage := [] }
        b dt g sc (List.range idxs.length) st
        (fun i' h' => by simpa using List.mem_range.1 h')
        (fun i' h' => by
          dsimp only
          rw [hlb]
          exact lt_of_le_of_lt
            (le_maxList idxs _ (getD_mem idxs i' (List.mem_range.1 h'))) hmax)
        (fun i' h' => by
          dsimp only
          rw [hld]
          exact lt_of_le_of_lt
            (le_maxList idxs _ (getD_mem idxs i' (List.mem_range.1 h'))) hmax)
        (fun i' h' => by
          dsimp only
          rw [hlg]
          exact lt_of_le_of_lt
            (le_maxList idxs _ (getD_mem idxs i' (List.mem_range.1 h'))) hmax)
        (fun i' h' => by
          dsimp only
          rw [hls]
          exact lt_of_le_of_lt
            (le_maxList idxs _ (getD_mem idxs i' (List.mem_range.1 h'))) hmax)
        ((List.nodup_range _).map_on (fun x hx y hy hxy => by
          dsimp only at hxy
          rw [harith x (List.mem_range.1 hx), harith y (List.mem_range.1 hy)] at hxy
          omega))
    refine ⟨st',
      { toImageSet := { data := d, indices := idxs, cacheIndex := -1, cacheImage := [] },
        beam := b, detector := dt, goniometer := g, scan := sc },
      ?_, rfl, rfl, rfl, rfl, rfl, ?_⟩
    · unfold ImageSweep.ofDataIndices
      rw [hbase]
      dsimp only
      rw [if_pos hnum.symm, if_pos hseq]
      dsimp only [ImageSet.size]
      rw [hrun]
    · intro k hk
      exact hmem' k (List.mem_range.2 hk)
  · intro st d b dt g sc hnum hlb hld hlg hls
    obtain ⟨st', hrun, hmem', _, _⟩ :=
      sweepLoop_spec (ImageSet.ofData d) b dt g sc
        (List.range (ImageSet.ofData d).size) st
        (fun i' h' => by
          simpa [ImageSet.ofData, ImageSet.size] using
            List.mem_range.1 h')
        (fun i' h' => by
          have hi' : i' < d.size := by
            simpa [ImageSet.ofData, ImageSet.size] using List.mem_range.1 h'
          show (List.range d.size).getD i' 0 < _
          rw [getD_range _ _ hi']
          dsimp only [ImageSet.ofData]
          rw [hlb]
          exact hi')
        (fun i' h' => by
          have hi' : i' < d.size := by
            simpa [ImageSet.ofData, ImageSet.size] using List.mem_range.1 h'
          show (List.range d.size).getD i' 0 < _
          rw [getD_range _ _ hi']
          dsimp only [ImageSet.ofData]
          rw [hld]
          exact hi')
        (fun i' h' => by
          have hi' : i' < d.size := by
            simpa [ImageSet.ofData, ImageSet.size] using List.mem_range.1 h'
          show (List.range d.size).getD i' 0 < _
          rw [getD_range _ _ hi']
          dsimp only [ImageSet.ofData]
          rw [hlg]
          exact hi')
        (fun i' h' => by
          have hi' : i' < d.size := by
            simpa [ImageSet.ofData, ImageSet.size] using List.mem_range.1 h'
          show (List.range d.size).getD i' 0 < _
          rw [getD_range _ _ hi']
          dsimp only [ImageSet.ofData]
          rw [hls]
          exact hi')
        ((List.nodup_range _).map_on (fun x hx y hy hxy => by
          have hx' : x < d.size := by
            simpa [ImageSet.ofData, ImageSet.size] using List.mem_range.1 hx
          have hy' : y < d.size := by
            simpa [ImageSet.ofData, ImageSet.size] using List.mem_range.1 hy
          dsimp only [ImageSet.ofData] at hxy
          rwa [getD_range _ _ hx', getD_range _ _ hy'] at hxy))
    refine ⟨st',
      { toImageSet := ImageSet.ofData d,
        beam := b, detector := dt, goniometer := g, scan := sc },
      ?_, rfl, rfl, rfl, rfl, ?_⟩
    · unfold ImageSweep.ofData
      dsimp only
      rw [if_pos hnum.symm, hrun]
    · intro k hk
      have hmm := hmem' k (by
        dsimp only [ImageSet.ofData, ImageSet.size]
        exact List.mem_range.2 (by rwa [List.length_range]))
      dsimp only [ImageSet.ofData] at hmm
      rwa [getD_range _ _ hk] at hmm

/-- The C5 witness store: one handle per model kind, two slots each. -/
def c5Store : ModelStore :=
  { beams := [[none, none]], detectors := [[none, none]],
    goniometers := [[none, none]], scans := [[none, none]] }

/-- The C5 witness data: a two-image collection. -/
def c5Data : ImageSetData :=
  { readerData := [[], []],
    beamsRef := 0, detectorsRef := 0, goniometersRef := 0, scansRef := 0,
    lookup := emptyLookup }

/-- C5 witness: the indexed constructor on indices [0, 1] with a two-image
scan succeeds and broadcasts the models and scan slices into both physical
slots. -/
theorem c5_sweep_construction_witness :
    ∃ st' sw, ImageSweep.ofDataIndices c5Store c5Data [0, 1] { tag := 1 } []
        { tag := 2 } { arrayStart := 0, numImages := 2 } = .ok (st', sw) ∧
      sw.toImageSet.indices = [0, 1] ∧ sw.beam = { tag := 1 } ∧
      sw.detector = [] ∧ sw.goniometer = { tag := 2 } ∧
      sw.scan = { arrayStart := 0, numImages := 2 } ∧
      ∀ k, k < ([0, 1] : List Nat).length →
        (st'.beams.getD c5Data.beamsRef []).getD (([0, 1] : List Nat).getD k 0) none =
          some { tag := 1 } ∧
        (st'.detectors.getD c5Data.detectorsRef []).getD (([0, 1] : List Nat).getD k 0) none =
          some [] ∧
        (st'.goniometers.getD c5Data.goniometersRef []).getD (([0, 1] : List Nat).getD k 0) none =
          some { tag := 2 } ∧
        (st'.scans.getD c5Data.scansRef []).getD (([0, 1] : List Nat).getD k 0) none =
          some (Scan.slice { arrayStart := 0, numImages := 2 } k) :=
  c5_sweep_construction.2.2.2.1 c5Store c5Data [0, 1] { tag := 1 } []
    { tag := 2 } { arrayStart := 0, numImages := 2 }
    (by simp) (by decide) rfl rfl rfl rfl rfl rfl

/-- The angle returned by vec3::angle is an arc-cosine, hence nonnegative. -/
theorem angle3_nonneg (u v : Vec3) : 0 ≤ angle3 u v :=
  Real.arccos_nonneg _

/-- C9: "Implicit: Panel::get_max_resolution_elipse divides wavelength by
2*sin(theta) without asserting that the computed sine is nonzero, unlike
get_resolution_at_pixel and get_max_resolution_at_corners which both assert
sintheta != 0 before dividing; so for an input where the minimum crosshair
angle is zero the elipse estimator performs an unguarded division by zero
instead of failing fatally."  Formally: whenever the two beam-centre guards
pass, get_max_resolution_elipse always returns `.ok` of the quotient —
including when its sine is zero — while the other two estimators fail
fatally whenever their computed sine is zero. -/
theorem c9_elipse_unguarded :
    (∀ (p : PanelGeom) (s0 : Vec3) (wl : ℝ),
      0 < (mulVec p.Dmat s0).z → 0 < dot3 s0 p.get_normal →
      p.get_max_resolution_elipse s0 wl = .ok (wl / (2 * elipseSinTheta p s0))) ∧
    (∀ (p : PanelGeom) (s0 : Vec3) (wl : ℝ) (xy : ℝ × ℝ),
      0 < dot3 s0 p.get_normal → pixelSinTheta p s0 xy = 0 →
      p.get_resolution_at_pixel s0 wl xy = .error "DXTBX_ASSERT: sintheta != 0") ∧
    (∀ (p : PanelGeom) (s0 : Vec3) (wl : ℝ),
      0 < dot3 s0 p.get_normal → cornersSinTheta p s0 = 0 →
      p.get_max_resolution_at_corners s0 wl = .error "DXTBX_ASSERT: sintheta != 0") := by
  refine ⟨?_, ?_, ?_⟩
  · intro p s0 wl h1 h2
    unfold PanelGeom.get_max_resolution_elipse PanelGeom.get_beam_centre
      PanelGeom.get_ray_intersection PanelGeom.get_beam_centre_lab
    dsimp only
    rw [if_pos h1]
    dsimp only
    rw [if_pos h2]
    dsimp only
    unfold elipseSinTheta rayIntersectionVal beamCentreLabVal
    dsimp only
  · intro p s0 wl xy h2 hz
    unfold PanelGeom.get_resolution_at_pixel PanelGeom.get_beam_centre_lab
    dsimp only
    rw [if_pos h2]
    dsimp only
    have hz' : Real.sin (0.5 * angle3
        (smul3 (p.get_distance / dot3 s0 p.get_normal) s0)
        (p.get_pixel_lab_coord xy)) = 0 := hz
    rw [if_pos hz']
  · intro p s0 wl h2 hz
    unfold PanelGeom.get_max_resolution_at_corners PanelGeom.get_beam_centre_lab
    dsimp only
    rw [if_pos h2]
    dsimp only
    have hz' : Real.sin (0.5 * max4
        (angle3 (smul3 (p.get_distance / dot3 s0 p.get_normal) s0) p.get_origin)
        (angle3 (smul3 (p.get_distance / dot3 s0 p.get_normal) s0)
          (p.get_pixel_lab_coord (0, (p.image_size.2 : ℝ))))
        (angle3 (smul3 (p.get_distance / dot3 s0 p.get_normal) s0)
          (p.get_pixel_lab_coord ((p.image_size.1 : ℝ), 0)))
        (angle3 (smul3 (p.get_distance / dot3 s0 p.get_normal) s0)
          (p.get_pixel_lab_coord ((p.image_size.1 : ℝ), (p.image_size.2 : ℝ))))) = 0 := hz
    rw [if_pos hz']

noncomputable section WitnessGeometry

/-- The C9 witness panel: fast (1,0,0), slow (0,1,0), origin (0,0,100),
pixel size (1,1), image size 100x100; the cached inverse of its frame
matrix. -/
def c9Panel : PanelGeom :=
  { dmat := { a0 := 1, a1 := 0, a2 := 0, a3 := 0, a4 := 1, a5 := 0,
              a6 := 0, a7 := 0, a8 := 100 },
    Dmat := { a0 := 1, a1 := 0, a2 := 0, a3 := 0, a4 := 1, a5 := 0,
              a6 := 0, a7 := 0, a8 := 1/100 },
    pixel_size := (1, 1), image_size := (100, 100) }

/-- The degenerate C9 corners panel: same frame, image size 0x0, so all four
corners coincide with the beam centre. -/
def c9PanelCorners : PanelGeom :=
  { dmat := { a0 := 1, a1 := 0, a2 := 0, a3 := 0, a4 := 1, a5 := 0,
              a6 := 0, a7 := 0, a8 := 100 },
    Dmat := { a0 := 1, a1 := 0, a2 := 0, a3 := 0, a4 := 1, a5 := 0,
              a6 := 0, a7 := 0, a8 := 1/100 },
    pixel_size := (1, 1), image_size := (0, 0) }

/-- The C9 beam direction, along the panel normal. -/
def c9S0 : Vec3 :=
  { x := 0, y := 0, z := 1 }

theorem c9_angle_bc : angle3 { x := 0, y := 0, z := 100 } { x := 0, y := 0, z := 100 } = 0 := by
  have h : Real.sqrt ((0:ℝ) * 0 + 0 * 0 + 100 * 100) *
      Real.sqrt ((0:ℝ) * 0 + 0 * 0 + 100 * 100) = 10000 := by
    rw [Real.mul_self_sqrt (by norm_num)]
    norm_num
  unfold angle3 norm3 dot3
  dsimp only
  rw [h]
  norm_num [Real.arccos_one]

theorem c9_bc_val : beamCentreLabVal c9Panel c9S0 = { x := 0, y := 0, z := 100 } := by
  unfold beamCentreLabVal PanelGeom.get_distance PanelGeom.get_origin
    PanelGeom.get_normal PanelGeom.get_fast_axis PanelGeom.get_slow_axis
    cross3 dot3 smul3 c9S0 c9Panel
  norm_num [Vec3.mk.injEq]

theorem c9c_bc_val : beamCentreLabVal c9PanelCorners c9S0 = { x := 0, y := 0, z := 100 } := by
  unfold beamCentreLabVal PanelGeom.get_distance PanelGeom.get_origin
    PanelGeom.get_normal PanelGeom.get_fast_axis PanelGeom.get_slow_axis
    cross3 dot3 smul3 c9S0 c9PanelCorners
  norm_num [Vec3.mk.injEq]

theorem c9_px (x y : ℝ) : c9Panel.get_pixel_lab_coord (x, y) = { x := x, y := y, z := 100 } := by
  unfold PanelGeom.get_pixel_lab_coord PanelGeom.get_lab_coord
    PanelGeom.pixel_to_millimeter mulVec c9Panel
  norm_num [Vec3.mk.injEq]

theorem c9c_px (x y : ℝ) : c9PanelCorners.get_pixel_lab_coord (x, y) = { x := x, y := y, z := 100 } := by
  unfold PanelGeom.get_pixel_lab_coord PanelGeom.get_lab_coord
    PanelGeom.pixel_to_millimeter mulVec c9PanelCorners
  norm_num [Vec3.mk.injEq]

theorem c9c_origin : c9PanelCorners.get_origin = { x := 0, y := 0, z := 100 } := by
  unfold PanelGeom.get_origin c9PanelCorners
  norm_num [Vec3.mk.injEq]

theorem c9_ray_val : rayIntersectionVal c9Panel c9S0 = (0, 0) := by
  unfold rayIntersectionVal mulVec c9Panel c9S0
  norm_num

theorem c9_mm_px_00 : c9Panel.millimeter_to_pixel (0, 0) = (0, 0) := by
  unfold PanelGeom.millimeter_to_pixel c9Panel
  norm_num

theorem c9_elipse_sin_zero : elipseSinTheta c9Panel c9S0 = 0 := by
  unfold elipseSinTheta min4
  dsimp only
  rw [c9_ray_val, c9_mm_px_00]
  dsimp only
  rw [c9_bc_val]
  simp only [c9_px, c9_angle_bc]
  rw [min_self, min_eq_left (angle3_nonneg _ _), min_eq_left (angle3_nonneg _ _)]
  simp

theorem c9_pixel_sin_zero : pixelSinTheta c9Panel c9S0 (0, 0) = 0 := by
  unfold pixelSinTheta
  rw [c9_bc_val, c9_px, c9_angle_bc]
  simp

theorem c9_corners_sin_zero : cornersSinTheta c9PanelCorners c9S0 = 0 := by
  unfold cornersSinTheta max4
  dsimp only
  rw [c9c_bc_val, c9c_origin]
  have h1 : ((c9PanelCorners.image_size.1 : Nat) : ℝ) = 0 := by
    norm_num [c9PanelCorners]
  have h2 : ((c9PanelCorners.image_size.2 : Nat) : ℝ) = 0 := by
    norm_num [c9PanelCorners]
  rw [h1, h2, c9c_px, c9_angle_bc]
  simp

theorem c9_guard_ray : 0 < (mulVec c9Panel.Dmat c9S0).z := by
  unfold mulVec c9Panel c9S0
  norm_num

theorem c9_guard_dot : 0 < dot3 c9S0 c9Panel.get_normal := by
  unfold dot3 PanelGeom.get_normal PanelGeom.get_fast_axis
    PanelGeom.get_slow_axis cross3 c9Panel c9S0
  norm_num

theorem c9c_guard_dot : 0 < dot3 c9S0 c9PanelCorners.get_normal := by
  unfold dot3 PanelGeom.get_normal PanelGeom.get_fast_axis
    PanelGeom.get_slow_axis cross3 c9PanelCorners c9S0
  norm_num

/-- C9 witness: on the concrete panel with the beam centred at pixel (0,0),
the elipse estimator computes a zero sine yet still returns the quotient,
while the pixel estimator at the beam-centre pixel and the corner estimator
on the degenerate panel both fail fatally on their zero sine. -/
theorem c9_elipse_unguarded_witness :
    elipseSinTheta c9Panel c9S0 = 0 ∧
    PanelGeom.get_max_resolution_elipse c9Panel c9S0 1 =
      .ok (1 / (2 * elipseSinTheta c9Panel c9S0)) ∧
    pixelSinTheta c9Panel c9S0 (0, 0) = 0 ∧
    PanelGeom.get_resolution_at_pixel c9Panel c9S0 1 (0, 0) =
      .error "DXTBX_ASSERT: sintheta != 0" ∧
    cornersSinTheta c9PanelCorners c9S0 = 0 ∧
    PanelGeom.get_max_resolution_at_corners c9PanelCorners c9S0 1 =
      .error "DXTBX_ASSERT: sintheta != 0" :=
  ⟨c9_elipse_sin_zero,
   c9_elipse_unguarded.1 c9Panel c9S0 1 c9_guard_ray c9_guard_dot,
   c9_pixel_sin_zero,
   c9_elipse_unguarded.2.1 c9Panel c9S0 1 (0, 0) c9_guard_dot c9_pixel_sin_zero,
   c9_corners_sin_zero,
   c9_elipse_unguarded.2.2 c9PanelCorners c9S0 1 c9c_guard_dot c9_corners_sin_zero⟩

end WitnessGeometry

end Dxtbx
